import Mathlib

/-!
Verification development for the smutscrape routing / extraction / pagination /
download-fallback engine.

Each Python function that a claim touches is shallowly embedded as an
executable Lean definition.  External capabilities (subprocesses, the HTML
query engine, the filesystem, selenium, the regex substitution engine) are
passed in as explicit function parameters ("oracles"); everything the source
computes itself is computed here as well.  Machine floats that the source only
compares and divides are modelled as rationals.
-/

namespace Smut

/-! ## Python string helpers used by the embedded code -/

/-- Python str.lower() restricted to the ASCII range (all inputs of interest
are ASCII URLs / config strings). -/
def pyLower (s : String) : String := ⟨s.data.map Char.toLower⟩

/-- Python str.rstrip("/") : drop trailing slashes. -/
def pyRstripSlash (s : String) : String := ⟨(s.data.reverse.dropWhile (· = '/')).reverse⟩

/-- Python str.strip() : drop leading and trailing whitespace. -/
def pyStrip (s : String) : String :=
  ⟨((s.data.dropWhile Char.isWhitespace).reverse.dropWhile Char.isWhitespace).reverse⟩

/-- Python str.rstrip() : drop trailing whitespace. -/
def pyRstrip (s : String) : String :=
  ⟨(s.data.reverse.dropWhile Char.isWhitespace).reverse⟩

/-- Remove the first occurrence of `sub` from a character list
(Python str.replace(sub, "", 1)). -/
def removeFirstSubAux (sub : List Char) : List Char → List Char
  | [] => []
  | c :: cs =>
      if sub.isPrefixOf (c :: cs) then (c :: cs).drop sub.length
      else c :: removeFirstSubAux sub cs

/-- Python s.replace(sub, "", 1). -/
def removeFirstSub (sub s : String) : String :=
  if sub.data = [] then s else ⟨removeFirstSubAux sub.data s.data⟩

/-- Python s.startswith(prf) (kernel-reducible, unlike String.startsWith). -/
def pyStartsWith (s prf : String) : Bool := prf.data.isPrefixOf s.data

/-- Python s.endswith(suf). -/
def pyEndsWith (s suf : String) : Bool :=
  suf.data.reverse.isPrefixOf s.data.reverse

/-! ## Pattern Router: `pattern_to_regex` (smutscrape/utilities.py:520-562)

The Python function compiles a `{name}`-template into an anchored regex and
returns `(regex, static_count, static_length)`.  We embed the compilation as a
parse into literal/wildcard components plus the two scores, and embed the
compiled regex's acceptance function directly (a `{page}` wildcard matches
`\d+`, any other wildcard matches `[^/?&#]+`, literals match case-insensitively
because the regex is compiled with IGNORECASE). -/

/-- One compiled component of a URL template. -/
inductive PatComp where
  | lit : String → PatComp
  | wild : String → PatComp
deriving Repr, DecidableEq

/-- Parser state mirroring the loop locals of `pattern_to_regex`. -/
structure PatState where
  comps : List PatComp
  staticCount : Nat
  staticLength : Nat
  inWildcard : Bool
  currentStatic : String
  wildcardName : String
deriving Repr

/-- Flush `current_static` into the component list (the `if current_static:`
blocks of `pattern_to_regex`). -/
def patFlush (st : PatState) : PatState :=
  if st.currentStatic = "" then st
  else { st with
          comps := st.comps ++ [PatComp.lit st.currentStatic]
          staticCount := st.staticCount + 1
          staticLength := st.staticLength + st.currentStatic.length
          currentStatic := "" }

/-- One character of the `for char in pattern.rstrip("/")` loop. -/
def patStep (st : PatState) (c : Char) : PatState :=
  if c = '{' then
    let st := patFlush st
    { st with inWildcard := true, wildcardName := "" }
  else if c = '}' then
    if st.inWildcard then
      { st with comps := st.comps ++ [PatComp.wild st.wildcardName], inWildcard := false }
    else
      { st with currentStatic := st.currentStatic.push c }
  else if st.inWildcard then
    { st with wildcardName := st.wildcardName.push c }
  else
    { st with currentStatic := st.currentStatic.push c }

/-- Embeds `pattern_to_regex`: returns the compiled components, the static
segment count, the static character length, and whether the regex is
end-anchored exactly (`^...$`, when the pattern holds no `?` or `&`) rather
than with the `^...(?:$|&.*)` suffix. -/
def pattern_to_regex (pattern : String) : List PatComp × Nat × Nat × Bool :=
  let init : PatState :=
    { comps := [], staticCount := 0, staticLength := 0,
      inWildcard := false, currentStatic := "", wildcardName := "" }
  let st := (pyRstripSlash pattern).data.foldl patStep init
  let st := patFlush st
  (st.comps, st.staticCount, st.staticLength,
    ¬ (pattern.data.contains '?' ∨ pattern.data.contains '&'))

/-- Character class of a compiled wildcard: `\d` for the reserved name `page`,
`[^/?&#]` otherwise. -/
def wildcardClass (numeric : Bool) (c : Char) : Bool :=
  if numeric then c.isDigit else ¬ (c = '/' ∨ c = '?' ∨ c = '&' ∨ c = '#')

/-- Acceptance of the tail once all components are consumed: `$` for an
exactly anchored regex, `(?:$|&.*)` otherwise. -/
def tailAccept (exact : Bool) (cs : List Char) : Bool :=
  if exact then cs.isEmpty else cs.isEmpty || cs.head? = some '&'

/-- Acceptance function of the compiled regex: literals compare
case-insensitively (IGNORECASE), each wildcard consumes one or more characters
of its class (regex `+`, tried at every split as backtracking does). -/
def compsMatch (exact : Bool) : List PatComp → List Char → Bool
  | [], cs => tailAccept exact cs
  | PatComp.lit s :: rest, cs =>
      decide ((cs.take s.length).map Char.toLower = s.data.map Char.toLower) &&
        compsMatch exact rest (cs.drop s.length)
  | PatComp.wild name :: rest, cs =>
      let numeric := name = "page"
      (List.range cs.length).any fun k =>
        (cs.take (k + 1)).all (wildcardClass numeric) &&
          compsMatch exact rest (cs.drop (k + 1))

/-- `regex.match(path)` for the regex compiled from `pattern` (the regex is
anchored with `^`, and `.match` anchors at the start anyway). -/
def patternMatches (pattern path : String) : Bool :=
  let (comps, _, _, exact) := pattern_to_regex pattern
  compsMatch exact comps path.data

/-- Score of a template as used for ranking: `(static_count, static_length)`,
as integers so that the `-1` initial bests of `match_url_to_mode` compare
below every real score. -/
def patScore (pattern : String) : Int × Int :=
  let (_, sc, sl, _) := pattern_to_regex pattern
  ((sc : Int), (sl : Int))

/-! ## Pattern Router: `match_url_to_mode` (core.py:442-497) -/

/-- The result of `urllib.parse.urlparse` on an absolute URL, restricted to
the three fields `match_url_to_mode` reads.  URL parsing itself is Python
stdlib, i.e. an external capability. -/
structure UrlParts where
  netloc : String
  path : String
  query : String
deriving Repr, DecidableEq

/-- The slice of a mode's configuration that routing reads. -/
structure ModeConfig where
  url_pattern : Option String := none
  url_pattern_pages : Option String := none
  scraper : String
  max_pages : Option Nat := none
deriving Repr, DecidableEq

/-- The slice of a site configuration that routing reads: the parsed base URL
and the ordered mode map. -/
structure RouterSite where
  base_url : UrlParts
  modes : List (String × ModeConfig)
deriving Repr

/-- `netloc.lower().replace("www.", "", 1)`. -/
def normNetloc (s : String) : String := removeFirstSub "www." (pyLower s)

/-- `path.rstrip("/").lower() + ("?" + query.lower() if query else "")`. -/
def fullPathOf (u : UrlParts) : String :=
  pyLower (pyRstripSlash u.path) ++ (if u.query ≠ "" then "?" ++ pyLower u.query else "")

/-- Accumulator of the best-match scan: `(best_match, best_static_count,
best_static_length)`. -/
structure RouterAcc where
  best : Option (String × String)
  bestCount : Int
  bestLength : Int
deriving Repr, DecidableEq

/-- Testing one template of one mode against the normalized path, updating
the best match exactly as the inner body of the mode loop does. -/
def routerStep (fullPath : String) (acc : RouterAcc)
    (mode scraper pat : String) : RouterAcc :=
  let (comps, sc, sl, exact) := pattern_to_regex pat
  if compsMatch exact comps fullPath.data then
    if (sc : Int) > acc.bestCount ∨ ((sc : Int) = acc.bestCount ∧ (sl : Int) > acc.bestLength) then
      { best := some (mode, scraper), bestCount := (sc : Int), bestLength := (sl : Int) }
    else acc
  else acc

/-- One iteration of the outer mode loop: try `url_pattern`, then
`url_pattern_pages`, skipping keys that are absent. -/
def routerMode (fullPath : String) (acc : RouterAcc) (mc : String × ModeConfig) : RouterAcc :=
  let acc1 := match mc.2.url_pattern with
    | some p => routerStep fullPath acc mc.1 mc.2.scraper p
    | none => acc
  match mc.2.url_pattern_pages with
  | some p => routerStep fullPath acc1 mc.1 mc.2.scraper p
  | none => acc1

/-- The last-resort test of the reserved "video" mode, entered only when no
non-"video" mode matched. -/
def videoFallback (fullPath : String) (site : RouterSite) : Option (String × String) :=
  match (site.modes.lookup "video").bind (fun v => v.url_pattern.map (fun p => (v, p))) with
  | some (v, pat) =>
      if patternMatches pat fullPath then some ("video", v.scraper) else none
  | none => none

/-- Embeds `match_url_to_mode(url, site_config)`.  Returns the chosen
`(mode, scraper)` pair or `none`. -/
def match_url_to_mode (u : UrlParts) (site : RouterSite) : Option (String × String) :=
  if normNetloc u.netloc ≠ normNetloc site.base_url.netloc then none
  else
    match ((site.modes.filter (fun mc => mc.1 ≠ "video")).foldl
        (routerMode (fullPathOf u))
        { best := none, bestCount := -1, bestLength := -1 }).best with
    | some bm => some bm
    | none => videoFallback (fullPathOf u) site

/-- The `(mode, scraper, template)` entries contributed by one mode to the
best-match scan: `url_pattern` first, then `url_pattern_pages`. -/
def entriesOfMode (mc : String × ModeConfig) : List (String × String × String) :=
  (match mc.2.url_pattern with
    | some p => [(mc.1, mc.2.scraper, p)]
    | none => []) ++
  (match mc.2.url_pattern_pages with
    | some p => [(mc.1, mc.2.scraper, p)]
    | none => [])

/-- The flattened list of `(mode, scraper, template)` entries the best-match
scan visits (non-"video" modes only), in visiting order. -/
def routerEntries (site : RouterSite) : List (String × String × String) :=
  ((site.modes.filter (fun mc => mc.1 ≠ "video")).map entriesOfMode).flatten

/-- Lexicographic order on template scores, non-strict. -/
def lexLe (a b : Int × Int) : Prop := a.1 < b.1 ∨ (a.1 = b.1 ∧ a.2 ≤ b.2)

/-- Invariant of the best-match scan over a list of already-visited entries:
either nothing matched yet and the accumulator is pristine, or the
accumulator holds a matching entry whose score dominates every match seen. -/
def AccOk (fp : String) (seen : List (String × String × String)) (acc : RouterAcc) : Prop :=
  (acc = { best := none, bestCount := -1, bestLength := -1 } ∧
    ∀ e ∈ seen, patternMatches e.2.2 fp = false)
  ∨ (∃ e ∈ seen, patternMatches e.2.2 fp = true ∧
      acc.best = some (e.1, e.2.1) ∧
      acc.bestCount = (patScore e.2.2).1 ∧ acc.bestLength = (patScore e.2.2).2 ∧
      ∀ e' ∈ seen, patternMatches e'.2.2 fp = true →
        lexLe (patScore e'.2.2) (patScore e.2.2))

/-! ## Post-download validation: `DownloadManager.get_video_metadata`
(smutscrape/downloaders.py:489-537)

The ffprobe subprocess and its JSON output are external; we embed the
function from the point where the probed values are in hand.  `none` for the
whole probe models a ffprobe failure or unparsable output (the `except`
branches).  Python floats are modelled as rationals. -/

/-- One entry of the probed `streams` array. -/
structure ProbeStream where
  width : Option Int := none
  height : Option Int := none
deriving Repr, DecidableEq

/-- The probed `format` object (values already converted as `float()` /
`int()` convert the JSON strings). -/
structure ProbeFormat where
  duration : Option ℚ := none
  size : Option Int := none
  bit_rate : Option Int := none
deriving Repr, DecidableEq

/-- A successful ffprobe run. -/
structure ProbeResult where
  format : ProbeFormat := {}
  streams : List ProbeStream := []
deriving Repr, DecidableEq

/-- Python `int()` truncation toward zero of a rational. -/
def pyTrunc (q : ℚ) : Int := q.num / (q.den : Int)

/-- Python `a % b` for rationals with positive modulus (sign of divisor). -/
def pyMod (a b : ℚ) : ℚ := a - b * (⌊a / b⌋ : Int)

/-- Python `f"{n:02d}"` for the nonnegative values produced here. -/
def twoDigits (n : Int) : String :=
  if 0 ≤ n ∧ n < 10 then "0" ++ toString n else toString n

/-- The `HH:MM:SS` string `get_video_metadata` builds from the duration. -/
def durationStr (duration : ℚ) : String :=
  twoDigits (pyTrunc (⌊duration / 3600⌋ : Int)) ++ ":" ++
  twoDigits (pyTrunc (⌊pyMod duration 3600 / 60⌋ : Int)) ++ ":" ++
  twoDigits (pyTrunc (pyMod duration 60))

/-- Truthiness of a stream's `width`/`height` (present and nonzero). -/
def streamHasWH (s : ProbeStream) : Bool :=
  (match s.width with | some w => w ≠ 0 | none => false) &&
  (match s.height with | some h => h ≠ 0 | none => false)

/-- The record `get_video_metadata` returns on success.  The `%.2f MB`
presentation string is kept as the exact rational it formats. -/
structure VideoInfo where
  size : Int
  size_mb : ℚ
  duration : String
  resolution : String
  bitrate_kbps : Int
deriving Repr, DecidableEq

/-- Embeds `DownloadManager.get_video_metadata`.  `fsSize` is
`os.path.getsize(file_path)`, the fallback when the probe reports no size. -/
def get_video_metadata (probe : Option ProbeResult) (fsSize : Int) : Option VideoInfo :=
  match probe with
  | none => none
  | some md =>
      let file_size : Int := md.format.size.getD fsSize
      let duration : ℚ := md.format.duration.getD 0
      let resolution : String :=
        match md.streams.find? streamHasWH with
        | some s => toString (s.width.getD 0) ++ "x" ++ toString (s.height.getD 0)
        | none => "Unknown"
      let bitrate : Int :=
        match md.format.bit_rate with
        | some b => Int.fdiv b 1000
        | none => 0
      if 0 < duration ∧ (file_size : ℚ) / duration < 10240 then none
      else
        some { size := file_size
               size_mb := (file_size : ℚ) / 1024 / 1024
               duration := durationStr duration
               resolution := resolution
               bitrate_kbps := bitrate }

/-! ## `download_video` (core.py:869-892)

The call into `DownloadManager.download_file` is embedded separately (C8);
here its outcome is an oracle, and we record the externally visible steps. -/

/-- Externally visible steps of `download_video`. -/
inductive DVEvent where
  | probeExisting
  | removeExisting
  | downloadAttempt
deriving Repr, DecidableEq

/-- Embeds `download_video`: if a file already exists at the destination and
`overwrite` is off, probe it; keep it when valid, otherwise delete it and
fall through to the download. -/
def download_video (existsAtDest overwrite : Bool)
    (existingProbe : Option ProbeResult) (existingFsSize : Int)
    (downloadFileResult : Bool) : Bool × List DVEvent :=
  if existsAtDest && !overwrite then
    match get_video_metadata existingProbe existingFsSize with
    | some _ => (true, [DVEvent.probeExisting])
    | none =>
        (downloadFileResult,
          [DVEvent.probeExisting, DVEvent.removeExisting, DVEvent.downloadAttempt])
  else (downloadFileResult, [DVEvent.downloadAttempt])

/-! ## `DownloadManager.download_file` (smutscrape/downloaders.py:405-487)

The concrete downloader backend is external: `downloadSuccess` is its boolean
outcome and `tempExistsAfter` whether the dot-prefixed temporary file exists
afterwards.  `tempProbe`/`tempFsSize` feed the validation probe of the
temporary file. -/

/-- Externally visible filesystem steps of `download_file`. -/
inductive DFEvent where
  | downloaderRun
  | renameTempToFinal
  | removeTemp
deriving Repr, DecidableEq

/-- Embeds `download_file`: run the chosen downloader against the dot-prefixed
temporary path, validate with `get_video_metadata`, and only rename
temp-to-final on success; otherwise delete the temporary file. -/
def download_file (urlEmpty methodKnown downloadSuccess tempExistsAfter : Bool)
    (tempProbe : Option ProbeResult) (tempFsSize : Int) : Bool × List DFEvent :=
  if urlEmpty then (false, [])
  else if !methodKnown then (false, [])
  else if downloadSuccess && tempExistsAfter then
    match get_video_metadata tempProbe tempFsSize with
    | some _ => (true, [DFEvent.downloaderRun, DFEvent.renameTempToFinal])
    | none => (false, [DFEvent.downloaderRun, DFEvent.removeTemp])
  else if !downloadSuccess then
    (false, DFEvent.downloaderRun ::
      (if tempExistsAfter then [DFEvent.removeTemp] else []))
  else
    (false, [DFEvent.downloaderRun])

/-! ## Fallback chain: `process_fallback_download`
(smutscrape/downloaders.py:539-594) and `download_with_ytdlp_fallback`
(smutscrape/downloaders.py:850-908) -/

/-- Embeds the tail of `download_with_ytdlp_fallback`: `procExit0` is
`process.wait() == 0`, `parsedFiles` the filenames parsed from the yt-dlp
output, `listdirAfter` the scratch directory listing used as a fallback when
the parse saw nothing.  Python returns `success and downloaded_files`, whose
truth value is `success ∧ files ≠ []`. -/
def download_with_ytdlp_fallback (procExit0 : Bool) (parsedFiles listdirAfter : List String) :
    Bool × List String :=
  let files := if procExit0 && parsedFiles.isEmpty then listdirAfter else parsedFiles
  (procExit0 && !files.isEmpty, files)

/-- Stages of the fallback chain, in execution order. -/
inductive FbEvent where
  | ytdlpStage
  | detectStage
  | storeFiles
deriving Repr, DecidableEq

/-- Embeds `process_fallback_download`: run the yt-dlp stage; only if it
produced nothing, run the direct-detection stage (`detectResult` its
outcome); if yt-dlp succeeded, move its files to the destination instead. -/
def process_fallback_download (yt : Bool × List String) (detectResult : Bool) :
    Bool × List FbEvent :=
  if !yt.1 || yt.2.isEmpty then
    if detectResult then (true, [FbEvent.ytdlpStage, FbEvent.detectStage])
    else (false, [FbEvent.ytdlpStage, FbEvent.detectStage])
  else (true, [FbEvent.ytdlpStage, FbEvent.storeFiles])

/-! ## Extraction pipeline: `extract_data` (core.py:208-356)

The HTML/XML query engine (BeautifulSoup) is external: a parsed document is a
`PyDoc` whose `select` / `findAllNs` capabilities answer queries, and an
element is its text plus its attribute map.  The regex substitution engine
(`re.sub` with DOTALL) is the external capability `resub`.

The injected filter guard at the top of the field loop (core.py:215-235)
reads the globals `args` and `item` that `run_with_args_shim.py` installs on
`builtins`; the shim always sets `builtins.item = {}`, which makes both of
the guard's conditions false, so under the shim the guard never skips a field
(and without the shim it raises `NameError`).  It is embedded as the no-op it
is in the only environment in which `extract_data` runs at all. -/

/-- A BeautifulSoup element: its (recursive) text and its attributes. -/
structure PyElement where
  text : String
  attrs : List (String × String)
deriving Repr, DecidableEq

/-- `element.get(name)`: the attribute value, or `none`. -/
def PyElement.get (e : PyElement) (name : String) : Option String :=
  (e.attrs.find? (fun p => p.1 = name)).map (fun p => p.2)

/-- A parsed document/fragment: the object itself (usable as an element for
attribute-only configs) plus its query capabilities.  BeautifulSoup Tags are
simultaneously elements and queryable documents: `select` is the
element-level view of a query's results and `selectDocs` the still-queryable
view of the same results (concrete instances keep the two consistent). -/
inductive PyDoc where
  | mk : (root : PyElement) → (select : String → List PyElement) →
      (findAllNs : String → String → List PyElement) →
      (selectDocs : String → List PyDoc) → PyDoc

def PyDoc.root : PyDoc → PyElement
  | PyDoc.mk r _ _ _ => r

def PyDoc.select : PyDoc → String → List PyElement
  | PyDoc.mk _ s _ _ => s

def PyDoc.findAllNs : PyDoc → String → String → List PyElement
  | PyDoc.mk _ _ f _ => f

def PyDoc.selectDocs : PyDoc → String → List PyDoc
  | PyDoc.mk _ _ _ d => d

/-- A Python value extract_data stores: a scalar string or a list of
strings. -/
inductive PyVal where
  | str : String → PyVal
  | list : List String → PyVal
deriving Repr, DecidableEq

/-- `value or isinstance(value, list)` — lists (even empty) are kept,
strings must be nonempty. -/
def PyVal.truthyOrList : PyVal → Bool
  | PyVal.str s => s ≠ ""
  | PyVal.list _ => true

def PyVal.isList : PyVal → Bool
  | PyVal.str _ => false
  | PyVal.list _ => true

/-- The `selector` key of a field config: one CSS selector or an ordered
alternative list. -/
inductive SelectorVal where
  | one : String → SelectorVal
  | many : List String → SelectorVal
deriving Repr, DecidableEq

/-- One `postProcess` step.  `max_attribute` carries the optional
`attribute` key and the `type` key (default "str"). -/
inductive PostStep where
  | replace : List (String × String) → PostStep
  | max_attribute : Option String → String → PostStep
  | first : Bool → PostStep
deriving Repr, DecidableEq

/-- A field's selector config: a bare string, or a dict with optional
`iframe`, `selector`, `attribute` and `postProcess` keys. -/
inductive FieldConfig where
  | plain : String → FieldConfig
  | dict : Option String → Option SelectorVal → Option String →
      Option (List PostStep) → FieldConfig
deriving Repr, DecidableEq

def FieldConfig.attributeKey : FieldConfig → Option String
  | FieldConfig.plain _ => none
  | FieldConfig.dict _ _ a _ => a

def FieldConfig.postProcessKey : FieldConfig → Option (List PostStep)
  | FieldConfig.plain _ => none
  | FieldConfig.dict _ _ _ p => p

def FieldConfig.isDict : FieldConfig → Bool
  | FieldConfig.plain _ => false
  | FieldConfig.dict _ _ _ _ => true

/-- The extraction context: driver / site-config presence, the site's
`m3u8_mode` flag, the iframe-piercing capability (selenium; `none` models an
exception while piercing) and the regex-substitution capability. -/
structure ExtractCtx where
  driverPresent : Bool := false
  sitePresent : Bool := true
  m3u8_mode : Bool := false
  iframePierce : String → String → Option (List PyElement) := fun _ _ => none
  resub : String → String → String → String := fun _ _ s => s

/-- `for sel in selector: elements.extend(soup.select(sel)); if elements:
break` — the first alternative with a non-empty result. -/
def firstNonemptySelect (doc : PyDoc) : List String → List PyElement
  | [] => []
  | s :: rest =>
      let es := doc.select s
      if es.isEmpty then firstNonemptySelect doc rest else es

/-- Python `s.split(sep, 1)` when `sep` occurs in `s`. -/
def pySplitFirst (sep : Char) (s : String) : Option (String × String) :=
  match s.data.findIdx? (· = sep) with
  | some i => some (⟨s.data.take i⟩, ⟨s.data.drop (i + 1)⟩)
  | none => none

/-- Element resolution for one field (core.py:237-274): iframe piercing when
declared and a driver is live, else the selector (alternatives or namespace
`ns|tag` form), else the soup itself for attribute-only configs, else
nothing.  A list-valued or missing `selector` under an `iframe` makes the
pierced `select` raise inside the `try`, which yields `[]`. -/
def selectElements (doc : PyDoc) (ctx : ExtractCtx) (cfg : FieldConfig) : List PyElement :=
  match cfg with
  | FieldConfig.plain sel => doc.select sel
  | FieldConfig.dict ifr sel attr _post =>
      if ifr.isSome && ctx.driverPresent && ctx.sitePresent then
        match ifr, sel with
        | some ifrSel, some (SelectorVal.one s) =>
            match ctx.iframePierce ifrSel s with
            | some es => es
            | none => []
        | _, _ => []
      else
        match sel with
        | some (SelectorVal.many sels) => firstNonemptySelect doc sels
        | some (SelectorVal.one s) =>
            match pySplitFirst '|' s with
            | some (ns, tag) => doc.findAllNs ns tag
            | none => doc.select s
        | none =>
            match attr with
            | some _ => [doc.root]
            | none => []

/-- The multi-value fields that get case-insensitive deduplication
(core.py:295). -/
def isMultiValueField (field : String) : Bool :=
  field == "tags" || field == "actors" || field == "producers" || field == "studios"

/-- The multi-value fields exempt from defaulting to the first element
(core.py:349 — note `producers` is absent here, unlike line 295). -/
def isFirstDefaultExempt (field : String) : Bool :=
  field == "tags" || field == "actors" || field == "studios"

/-- Order-preserving case-insensitive deduplication keeping the first-seen
casing (the `seen` set comprehension, core.py:299-300). -/
def dedupCIAux (seen : List String) : List String → List String
  | [] => []
  | v :: vs =>
      if pyLower v ∈ seen then dedupCIAux seen vs
      else v :: dedupCIAux (pyLower v :: seen) vs

def dedupCI (vs : List String) : List String := dedupCIAux [] vs

/-- The stripped texts of elements with non-blank text (core.py:296). -/
def multiTexts (elements : List PyElement) : List String :=
  elements.filterMap fun el =>
    if el.text ≠ "" && pyStrip el.text ≠ "" then some (pyStrip el.text) else none

/-- The full multi-value treatment (core.py:296-300): collect non-blank
stripped texts, the (vacuous) normalized-set filter, then dedup. -/
def multiValueDedup (elements : List PyElement) : List String :=
  let values := multiTexts elements
  let normalized := (values.filter (· ≠ "")).map pyLower
  let kept := values.filter (fun v => normalized.contains (pyLower v))
  dedupCI kept

/-- Python `int()` on a string: strip, optional sign, decimal digits. -/
def digitsToNat (ds : List Char) : Nat :=
  ds.foldl (fun n c => n * 10 + (c.toNat - 48)) 0

def pyParseInt (s : String) : Option Int :=
  match (pyStrip s).data with
  | [] => none
  | '-' :: ds =>
      if ds ≠ [] ∧ ds.all Char.isDigit then some (-(digitsToNat ds : Int)) else none
  | '+' :: ds =>
      if ds ≠ [] ∧ ds.all Char.isDigit then some ((digitsToNat ds : Int)) else none
  | ds => if ds.all Char.isDigit then some ((digitsToNat ds : Int)) else none

/-- Python `float()` on a plain decimal string (exponent forms are not used
by any configuration). -/
def pyParseFloat (s : String) : Option ℚ :=
  let core : List Char → Option ℚ := fun ds =>
    match ds.findIdx? (· = '.') with
    | some i =>
        let ip := ds.take i
        let fp := ds.drop (i + 1)
        if (ip ≠ [] ∨ fp ≠ []) ∧ ip.all Char.isDigit ∧ fp.all Char.isDigit ∧
            ¬ fp.contains '.' then
          some ((digitsToNat ip : ℚ) + (digitsToNat fp : ℚ) / ((10 : ℚ) ^ fp.length))
        else none
    | none => if ds ≠ [] ∧ ds.all Char.isDigit then some ((digitsToNat ds : ℚ)) else none
  match (pyStrip s).data with
  | '-' :: ds => (core ds).map (fun q => -q)
  | '+' :: ds => core ds
  | ds => core ds

/-- Python `max(l, key=...)`: the first element attaining the maximum. -/
def pyMaxBySnd {β : Type} [LT β] [DecidableRel (α := β) (· < ·)] :
    List (String × β) → String
  | [] => ""
  | x :: xs => (xs.foldl (fun best y => if best.2 < y.2 then y else best) x).1

/-- One `postProcess` step (core.py:303-346). -/
def applyPostStep (resub : String → String → String → String)
    (elements : List PyElement) (value : PyVal) (step : PostStep) : PyVal :=
  match step with
  | PostStep.replace pairs =>
      pairs.foldl (fun v pr =>
        match v with
        | PyVal.list l =>
            PyVal.list (l.map fun x => if x ≠ "" then resub pr.1 pr.2 x else "")
        | PyVal.str s => PyVal.str (if s ≠ "" then resub pr.1 pr.2 s else "")) value
  | PostStep.first b =>
      match value, b with
      | PyVal.list l, true => PyVal.str (l.headD "")
      | _, _ => value
  | PostStep.max_attribute attrName attrType =>
      match value with
      | PyVal.str _ => value
      | PyVal.list vals =>
          match attrName with
          | none => value
          | some an =>
              let attr_values : List (String × String) :=
                vals.enum.filterMap fun iv =>
                  match (elements.get? iv.1).bind (fun e => e.get an) with
                  | some a => some (iv.2, a)
                  | none => none
              if attr_values.isEmpty then PyVal.str (vals.headD "")
              else if attrType = "int" then
                match attr_values.mapM (fun p => (pyParseInt p.2).map (fun n => (p.1, n))) with
                | some conv => PyVal.str (pyMaxBySnd conv)
                | none => PyVal.str (vals.headD "")
              else if attrType = "float" then
                match attr_values.mapM (fun p => (pyParseFloat p.2).map (fun q => (p.1, q))) with
                | some conv => PyVal.str (pyMaxBySnd conv)
                | none => PyVal.str (vals.headD "")
              else
                PyVal.str (pyMaxBySnd attr_values)

/-- One iteration of the field loop of `extract_data` (core.py:214-354).
`none` is the `continue` that stores nothing (the `download_url` skip under
`m3u8_mode`). -/
def extractField (doc : PyDoc) (ctx : ExtractCtx) (field : String)
    (cfg : FieldConfig) : Option PyVal :=
  if field == "download_url" && ctx.m3u8_mode then none
  else
    let elements := selectElements doc ctx cfg
    if elements.isEmpty then some (PyVal.str "")
    else
      let isAttr := cfg.attributeKey.isSome
      let value : PyVal :=
        if isAttr then
          let attr := cfg.attributeKey.getD ""
          let values := elements.filterMap fun el =>
            match el.get attr with
            | some v => if v ≠ "" then some v else none
            | none => none
          if values.length = 1 then PyVal.str (values.headD "")
          else if ¬ values.isEmpty then PyVal.list values
          else PyVal.str ""
        else
          PyVal.str (match elements.head? with
            | some e => if e.text ≠ "" then pyStrip e.text else ""
            | none => "")
      let value :=
        if isMultiValueField field && !isAttr then
          PyVal.list (multiValueDedup elements)
        else value
      let value :=
        match cfg.postProcessKey with
        | some steps => steps.foldl (applyPostStep ctx.resub elements) value
        | none => value
      let value :=
        if cfg.isDict && cfg.postProcessKey.isNone && value.isList &&
            !(isFirstDefaultExempt field) then
          match value with
          | PyVal.list l => PyVal.str (l.headD "")
          | v => v
        else value
      some (if value.truthyOrList then value else PyVal.str "")

/-- The field loop, building the `data` dict in insertion order. -/
def extractFields (doc : PyDoc) (ctx : ExtractCtx) :
    List (String × FieldConfig) → List (String × PyVal)
  | [] => []
  | (f, c) :: rest =>
      match extractField doc ctx f c with
      | none => extractFields doc ctx rest
      | some v => (f, v) :: extractFields doc ctx rest

/-- Embeds `extract_data(soup, selectors, driver, site_config)`; `none` for
the document models `soup is None`. -/
def extract_data (doc : Option PyDoc) (ctx : ExtractCtx)
    (selectors : List (String × FieldConfig)) : List (String × PyVal) :=
  match doc with
  | none => []
  | some d => extractFields d ctx selectors

/-! ## `custom_title_case` (smutscrape/utilities.py:367-398) and
`finalize_metadata` (smutscrape/metadata.py:20-52) -/

/-- Python `str.title()` for ASCII: a letter after a non-letter is
uppercased, a letter after a letter is lowercased. -/
def pyTitleAux : List Char → Bool → List Char
  | [], _ => []
  | c :: cs, prevCased =>
      if c.isAlpha then
        (if prevCased then c.toLower else c.toUpper) :: pyTitleAux cs true
      else c :: pyTitleAux cs false

def pyTitle (s : String) : String := ⟨pyTitleAux s.data false⟩

/-- `re.search(r'[a-z][A-Z]|[A-Z][a-z]', text)`: some adjacent pair of
letters changes case. -/
def hasMixedCase (s : String) : Bool :=
  (s.data.zip s.data.tail).any fun pc =>
    (pc.1.isLower && pc.2.isUpper) || (pc.1.isUpper && pc.2.isLower)

/-- Python `text.split()`: split on whitespace runs, dropping empties. -/
def pySplitWsAux : List Char → List Char → List String
  | [], acc => if acc.isEmpty then [] else [⟨acc.reverse⟩]
  | c :: cs, acc =>
      if c.isWhitespace then
        if acc.isEmpty then pySplitWsAux cs []
        else (⟨acc.reverse⟩ : String) :: pySplitWsAux cs []
      else pySplitWsAux cs (c :: acc)

def pySplitWs (s : String) : List String := pySplitWsAux s.data []

/-- `{term.lower(): term for term in uppercase_list}.get(k)` — on collisions
the later term wins, hence the reversed search. -/
def overrideLookup (l : List String) (k : String) : Option String :=
  l.reverse.find? (fun t => pyLower t = k)

/-- Embeds `custom_title_case(text, uppercase_list, preserve_mixed_case)`. -/
def custom_title_case (text : String) (uppercase_list : List String)
    (preserve_mixed_case : Bool) : String :=
  if text = "" then text
  else if preserve_mixed_case && hasMixedCase text &&
      !((uppercase_list.map pyLower).contains (pyLower text)) then text
  else
    let words := pySplitWs text
    if words.isEmpty then
      (overrideLookup uppercase_list (pyLower text)).getD (pyTitle text)
    else
      String.intercalate " " (words.map fun w =>
        match overrideLookup uppercase_list (pyLower w) with
        | some t => t
        | none =>
            if !preserve_mixed_case || words.length > 1 then pyTitle w else w)

/-- Iterating a Python value: a list yields its items, a string its
characters (this is what `for x in final_metadata.get('tags', [])` does when
a missing-selector field left `''` there), absence yields nothing. -/
def pyIter : Option PyVal → List String
  | some (PyVal.list l) => l
  | some (PyVal.str s) => s.data.map Char.toString
  | none => []

/-- `d[k] = v` on an insertion-ordered dict: update in place or append. -/
def setKey (m : List (String × PyVal)) (k : String) (v : PyVal) :
    List (String × PyVal) :=
  if (m.lookup k).isSome then m.map (fun p => if p.1 = k then (k, v) else p)
  else m ++ [(k, v)]

/-- `[x.lstrip('#') for x in ... if x and x.strip() != "and"]`. -/
def cleanPeople (l : List String) : List String :=
  (l.filter (fun x => x ≠ "" && pyStrip x ≠ "and")).map
    (fun x => (⟨x.data.dropWhile (· = '#')⟩ : String))

/-- Embeds `finalize_metadata(metadata, general_config)`; the two override
lists are `general_config['case_overrides']` and
`general_config['tag_case_overrides']`. -/
def finalize_metadata (metadata : List (String × PyVal))
    (case_overrides tag_case_overrides : List String) : List (String × PyVal) :=
  let tag_overrides := case_overrides ++ tag_case_overrides
  let actors := cleanPeople (pyIter (metadata.lookup "actors"))
  let studios0 := cleanPeople (pyIter (metadata.lookup "studios"))
  let tags0 := cleanPeople (pyIter (metadata.lookup "tags"))
  let actorsLower := actors.map pyLower
  let studios := studios0.filter (fun s => !(actorsLower.contains (pyLower s)))
  let studiosLower := studios.map pyLower
  let tags := tags0.filter (fun t =>
    !(actorsLower.contains (pyLower t)) && !(studiosLower.contains (pyLower t)))
  let m := metadata
  let m := setKey m "actors"
    (PyVal.list (actors.map (fun a => custom_title_case a case_overrides true)))
  let m := setKey m "studios"
    (PyVal.list (studios.map (fun s => custom_title_case s case_overrides true)))
  let m := setKey m "tags"
    (PyVal.list (tags.map (fun t => custom_title_case t tag_overrides false)))
  let m := match metadata.lookup "title" with
    | some (PyVal.str t) =>
        if t ≠ "" then setKey m "title" (PyVal.str (custom_title_case (pyStrip t) case_overrides false))
        else m
    | _ => m
  match metadata.lookup "studio" with
  | some (PyVal.str t) =>
      if t ≠ "" then
        setKey m "studio"
          (PyVal.str (custom_title_case (⟨t.data.dropWhile (· = '#')⟩ : String) case_overrides true))
      else m
  | _ => m

/-! ### Concrete documents and context used by the extraction theorems -/

/-- A context with no selenium driver, no stream mode. -/
def defaultCtx : ExtractCtx := { driverPresent := false }

/-- A document in which no selector matches anything. -/
def emptySelDoc : PyDoc :=
  PyDoc.mk { text := "", attrs := [] } (fun _ => []) (fun _ _ => []) (fun _ => [])

/-- A document whose `ul li` elements carry the texts `A`, `a`, `B` (and a
`data-q` attribute used by the attribute-extraction scenario). -/
def sampleTagsDoc : PyDoc :=
  PyDoc.mk { text := "", attrs := [] }
    (fun s =>
      if s = "ul li" then
        [{ text := "A", attrs := [("data-q", "1")] },
         { text := "a", attrs := [("data-q", "2")] },
         { text := "B", attrs := [("data-q", "3")] }]
      else [])
    (fun _ _ => []) (fun _ => [])

/-! ## `construct_filename` (smutscrape/utilities.py:401-454) and
`process_title` (smutscrape/utilities.py:358-364)

`name_prefix` / `name_suffix` are called `namePre` / `nameSuf` here.  The six
random characters of the unique id are the parameter `uid6` (randomness is
external).  The `while len(filename.encode('utf-8')) > 255` loop is embedded
with explicit fuel `title length + 1`, which bounds every terminating run of
the source loop; the C10 theorem shows a configuration on which the source
loop never exits. -/

/-- Python `s.replace(sub, "")` for nonempty `sub`: remove all
non-overlapping occurrences, scanning left to right. -/
def pyReplaceAllAux (sub : List Char) : List Char → List Char
  | [] => []
  | c :: cs =>
      if sub.isPrefixOf (c :: cs) then pyReplaceAllAux sub (cs.drop (sub.length - 1))
      else c :: pyReplaceAllAux sub cs
termination_by l => l.length
decreasing_by
  · simp only [List.length_cons]
    have := List.length_drop (sub.length - 1) cs
    omega
  · simp only [List.length_cons]
    omega

/-- Python `s.replace(sub, "")` (for `sub = ""` Python returns `s`). -/
def pyReplaceAll (sub s : String) : String :=
  if sub = "" then s else ⟨pyReplaceAllAux sub.data s.data⟩

/-- Embeds `process_title`: strip every configured invalid character
(sub)string from the title. -/
def process_title (title : String) (invalid_chars : List String) : String :=
  invalid_chars.foldl (fun t ch => pyReplaceAll ch t) title

/-- `f"{prefix}{processed_title}{suffix}{unique_id}{extension}"` (with
`unique_id = ""` when no uniqueness is requested, which merges the two
f-strings of the source). -/
def buildFilename (namePre t nameSuf uid ext : String) : String :=
  namePre ++ t ++ nameSuf ++ uid ++ ext

/-- One iteration of the byte-length trim loop: compute the excess over 255
bytes, cut `excess // 4 + 1` characters off the title's tail, and rstrip. -/
def trimStep (namePre nameSuf uid ext : String) (t : String) : String :=
  let excess := (buildFilename namePre t nameSuf uid ext).utf8ByteSize - 255
  pyRstrip ⟨t.data.take (t.length - (excess / 4 + 1))⟩

/-- The `while len(filename.encode('utf-8')) > 255` loop, with fuel.  Fuel
exhaustion (returning `t` with the guard still true) corresponds to the
source looping forever. -/
def trimLoop (namePre nameSuf uid ext : String) : Nat → String → String
  | 0, t => t
  | fuel + 1, t =>
      if 255 < (buildFilename namePre t nameSuf uid ext).utf8ByteSize then
        trimLoop namePre nameSuf uid ext fuel (trimStep namePre nameSuf uid ext t)
      else t

/-- `'_' + ''.join(random.choices(..., k=6)) if unique_name or make_unique
else ''`. -/
def uniqueIdOf (unique_name make_unique : Bool) (uid6 : String) : String :=
  if unique_name || make_unique then "_" ++ uid6 else ""

/-- `max_title_chars` with the `<= 0` adjustment (utilities.py:422-426). -/
def maxTitleChars (max_chars fixed_length : Nat) : Int :=
  let mtc0 : Int := ((min max_chars 255 : Nat) : Int) - (fixed_length : Int)
  if mtc0 ≤ 0 then max 1 (255 - (fixed_length : Int)) else mtc0

/-- The pre-loop character-count truncation (utilities.py:429-431). -/
def truncTitle (t : String) (mtc : Int) : String :=
  if (t.length : Int) > mtc then pyRstrip ⟨t.data.take mtc.toNat⟩ else t

/-- Embeds `construct_filename(title, site_config, general_config)`. -/
def construct_filename (title namePre nameSuf extension : String)
    (invalid_chars : List String) (max_chars : Nat)
    (unique_name make_unique : Bool) (uid6 : String) : String :=
  let uid := uniqueIdOf unique_name make_unique uid6
  let pt := truncTitle (process_title title invalid_chars)
    (maxTitleChars max_chars
      (namePre.length + nameSuf.length + extension.length + uid.length))
  buildFilename namePre (trimLoop namePre nameSuf uid extension (pt.length + 1) pt)
    nameSuf uid extension

/-- A 300-character prefix — a configuration whose fixed filename parts
alone exceed the 255-byte ceiling. -/
def aPre300 : String := ⟨List.replicate 300 'a'⟩

/-! ## `fetch_page` (core.py:167-205)

The HTTP client / selenium driver are external: `requestsResult` is the
outcome of the single cloudscraper GET (with its `except` giving `none`), and
`seleniumResult k` the outcome of the selenium attempt at retry count `k`
(`none` = exception).  On a selenium exception with `retry_count < 2` a fresh
driver is requested (`newDriverOk k`) and the fetch recurses.  The second
component counts the attempts actually made. -/

def fetch_page_selenium (seleniumResult : Nat → Option PyDoc)
    (newDriverOk : Nat → Bool) (rc : Nat) : Option PyDoc × Nat :=
  match seleniumResult rc with
  | some d => (some d, 1)
  | none =>
      if rc < 2 then
        if newDriverOk rc then
          let r := fetch_page_selenium seleniumResult newDriverOk (rc + 1)
          (r.1, r.2 + 1)
        else (none, 1)
      else (none, 1)
termination_by 3 - rc
decreasing_by omega

/-- Embeds `fetch_page`: one plain HTTP attempt, or the selenium path with up
to two session-recreating retries (none at all when no driver was supplied). -/
def fetch_page (useSelenium driverPresent : Bool) (requestsResult : Option PyDoc)
    (seleniumResult : Nat → Option PyDoc) (newDriverOk : Nat → Bool) :
    Option PyDoc × Nat :=
  if !useSelenium then (requestsResult, 1)
  else if !driverPresent then (none, 0)
  else fetch_page_selenium seleniumResult newDriverOk 0

/-! ## `process_list_page` (core.py:637-766) and the list-mode loop of
`process_url` (core.py:556-566)

External capabilities per page: the fetch oracles above, `urljoin` (Python
stdlib), and the two `construct_url` outcomes (`nextConstructed` for the
pattern-based next page, `constructVideoUrl` for a `video_key` item).
`process_video_page` is invoked through the oracle `pv`, which returns its
boolean outcome and the URLs it appended to the state set (the source only
ever adds to the set).  The list-stage filter hook
(`from smutscrape.filters import should_keep_list_entry`) refers to a module
absent from the repository, so its `try` always lands in the `except` that
logs and keeps the item: it is the no-op it is at runtime. -/

/-- The slice of a site configuration that list processing reads. -/
structure ListSite where
  use_selenium : Bool := false
  driverAvailable : Bool := false
  base_url : String := ""
  container_selector : SelectorVal
  item_selector : String
  itemFields : List (String × FieldConfig) := []
  ctx : ExtractCtx := {}
  modes : List (String × ModeConfig) := []
  scraperMaxPages : Option Nat := none
  hasPagination : Bool := false
  nextPageCfg : Option (String × String) := none

/-- The per-page external world. -/
structure PageWorld where
  requestsResult : Option PyDoc := none
  seleniumResult : Nat → Option PyDoc := fun _ => none
  newDriverOk : Nat → Bool := fun _ => true
  nextConstructed : Option String := none
  urljoin : String → String → String := fun b _ => b
  constructVideoUrl : String → String := fun k => k

/-- Observable per-item steps of a list page. -/
inductive LEvent where
  | fetchListPage
  | processVideo (url : String)
  | skipProcessed (url : String)
deriving Repr, DecidableEq

/-- What `process_list_page` returns (next URL and page number, page
success) together with the threaded state set, the events and the number of
fetch attempts made. -/
structure ListPageResult where
  next : Option (String × Nat)
  success : Bool
  state : List String
  events : List LEvent
  fetchAttempts : Nat
deriving Repr, DecidableEq

/-- URL resolution for one extracted item (core.py:688-696): an extracted
`url` made absolute, else a `video_key` put through `construct_url`, else the
item is skipped.  (A list-valued `url` would raise at `startswith` in the
source; configurations extract it single-valued.) -/
def resolveItemUrl (urljoin : String → String → String) (base_url : String)
    (constructVideoUrl : String → String)
    (video_data : List (String × PyVal)) : Option String :=
  match video_data.lookup "url" with
  | some (PyVal.str u) =>
      some (if pyStartsWith u "http://" || pyStartsWith u "https://" then u
            else if pyStartsWith u "//" then "http:" ++ u
            else urljoin base_url u)
  | some (PyVal.list _) => none
  | none =>
      match video_data.lookup "video_key" with
      | some (PyVal.str k) => some (constructVideoUrl k)
      | _ => none

/-- `for selector in container_selector: container = soup.select_one(...);
if container: break`. -/
def firstContainer (soup : PyDoc) : List String → Option PyDoc
  | [] => none
  | s :: rest =>
      match (soup.selectDocs s).head? with
      | some c => some c
      | none => firstContainer soup rest

/-- The container lookup (core.py:649-665). -/
def containerOf (soup : PyDoc) : SelectorVal → Option PyDoc
  | SelectorVal.one s => (soup.selectDocs s).head?
  | SelectorVal.many sels => firstContainer soup sels

/-- The per-item loop of `process_list_page` (core.py:683-722), 1-based.
Returns (page success, threaded state, events). -/
def itemLoop (site : ListSite) (pv : String → List String → Bool × List String)
    (w : PageWorld) (video_offset : Nat) (overwrite new_nfo : Bool) :
    Nat → List String → Bool → List PyDoc → Bool × List String × List LEvent
  | _, state, success, [] => (success, state, [])
  | i, state, success, item :: rest =>
      if 0 < video_offset ∧ i < video_offset then
        itemLoop site pv w video_offset overwrite new_nfo (i + 1) state success rest
      else
        match resolveItemUrl w.urljoin site.base_url w.constructVideoUrl
            (extract_data (some item) site.ctx site.itemFields) with
        | none => itemLoop site pv w video_offset overwrite new_nfo (i + 1) state success rest
        | some vurl =>
            if vurl ∈ state ∧ (overwrite || new_nfo) = false then
              let r := itemLoop site pv w video_offset overwrite new_nfo (i + 1) state true rest
              (r.1, r.2.1, LEvent.skipProcessed vurl :: r.2.2)
            else
              let pr := pv vurl state
              let r := itemLoop site pv w video_offset overwrite new_nfo (i + 1)
                (state ++ pr.2) (success || pr.1) rest
              (r.1, r.2.1, LEvent.processVideo vurl :: r.2.2)

/-- `max_pages = mode_config.get('max_pages', scraper_pagination.get('max_pages',
float('inf')))`; `none` is the infinite default. -/
def effMaxPages (mcfg : ModeConfig) (site : ListSite) : Option Nat :=
  match mcfg.max_pages with
  | some m => some m
  | none => site.scraperMaxPages

/-- The next-URL computation (core.py:740-761): pattern-based construction if
the mode has `url_pattern_pages`, else the selector-based next link. -/
def rawNextUrl (site : ListSite) (w : PageWorld) (soup : PyDoc)
    (mcfg : ModeConfig) : Option String :=
  if mcfg.url_pattern_pages.isSome then w.nextConstructed
  else if site.hasPagination then
    match site.nextPageCfg with
    | some (sel, attrName) =>
        match (soup.selectDocs sel).head? with
        | some np =>
            match np.root.get attrName with
            | some href =>
                some (if href ≠ "" &&
                        !(pyStartsWith href "http://" || pyStartsWith href "https://") then
                    w.urljoin site.base_url href
                  else href)
            | none => none
        | none => none
    | none => none
  else none

/-- The pagination decision (core.py:727-766): no next page when the mode is
unknown, when `page_num >= max_pages`, or when no (truthy) next URL arises. -/
def paginationNext (site : ListSite) (w : PageWorld) (soup : PyDoc)
    (mode : String) (page_num : Nat) : Option (String × Nat) :=
  match site.modes.lookup mode with
  | none => none
  | some mcfg =>
      match effMaxPages mcfg site with
      | some m =>
          if m ≤ page_num then none
          else (rawNextUrl site w soup mcfg).bind fun u =>
            if u ≠ "" then some (u, page_num + 1) else none
      | none =>
          (rawNextUrl site w soup mcfg).bind fun u =>
            if u ≠ "" then some (u, page_num + 1) else none

/-- Embeds `process_list_page`. -/
def process_list_page (site : ListSite) (w : PageWorld)
    (pv : String → List String → Bool × List String)
    (page_num video_offset : Nat) (mode : String) (overwrite new_nfo : Bool)
    (state : List String) : ListPageResult :=
  let fr := fetch_page site.use_selenium site.driverAvailable w.requestsResult
    w.seleniumResult w.newDriverOk
  match fr.1 with
  | none =>
      { next := none, success := false, state := state,
        events := [LEvent.fetchListPage], fetchAttempts := fr.2 }
  | some soup =>
      match containerOf soup site.container_selector with
      | none =>
          { next := none, success := false, state := state,
            events := [LEvent.fetchListPage], fetchAttempts := fr.2 }
      | some container =>
          let items := container.selectDocs site.item_selector
          if items.isEmpty then
            { next := none, success := false, state := state,
              events := [LEvent.fetchListPage], fetchAttempts := fr.2 }
          else
            let r := itemLoop site pv w video_offset overwrite new_nfo 1 state false items
            { next := paginationNext site w soup mode page_num,
              success := r.1, state := r.2.1,
              events := LEvent.fetchListPage :: r.2.2, fetchAttempts := fr.2 }

/-- The `while effective_url:` loop of `process_url` (core.py:556-566), with
fuel; the third component counts the pages fetched (one `process_list_page`
call each).  The video offset resets to zero after the first page. -/
def listLoop (site : ListSite) (worlds : Nat → PageWorld)
    (pv : String → List String → Bool × List String)
    (mode : String) (overwrite new_nfo : Bool) :
    Nat → Option String → Nat → Nat → List String → Bool →
      Bool × List String × Nat
  | 0, _, _, _, state, success => (success, state, 0)
  | _ + 1, none, _, _, state, success => (success, state, 0)
  | fuel + 1, some url, page, offset, state, success =>
      if url = "" then (success, state, 0)
      else
        let r := process_list_page site (worlds page) pv page offset mode
          overwrite new_nfo state
        match r.next with
        | some (u, p2) =>
            let rec2 := listLoop site worlds pv mode overwrite new_nfo fuel
              (some u) p2 0 r.state (success || r.success)
            (rec2.1, rec2.2.1, rec2.2.2 + 1)
        | none => (success || r.success, r.state, 1)

/-! ## `process_video_page` (core.py:895-1124), plain acquisition path

This embeds the function for sites without the stream-detection flags
(`m3u8_mode` / `mp4_mode` / `detect_mode` all false — the branches at
core.py:913-1021 are not taken), which is the path every non-stream site
follows.  External capabilities: the fetch oracles, the ignored-terms regex
check (`shouldIgnore`, embedding `should_ignore_video`'s outcome), the SMB
storage collaborator (`smbFileExists`, `smbNfoExists`), the local filesystem
probe for the destination path (`finalPathExists`, `probeFinal`,
`probeFinalFs`), and the `download_file` backend outcome
(`downloadFileResult`).  The trailing VPN/sleep handling has no observable
effect here.  The initial `raw_data = {'title': url.split('/')[-2]}` is
overwritten by the extraction on every path this branch can take, so it does
not appear. -/

/-- The configured destination type. -/
inductive DestType where
  | smb
  | local
deriving Repr, DecidableEq

/-- The slice of a site configuration that video-page processing reads. -/
structure VideoSite where
  use_selenium : Bool := false
  videoFields : List (String × FieldConfig) := []
  ctx : ExtractCtx := {}
  remove_title_string : String := ""
  namePre : String := ""
  nameSuf : String := ""
  unique_name : Bool := false

/-- The slice of the general configuration that video-page processing reads. -/
structure GeneralCfg where
  extension : String := ".mp4"
  invalid_chars : List String := []
  max_chars : Nat := 255
  make_unique : Bool := false
  make_nfo : Bool := false
  destType : DestType := DestType.smb
  case_overrides : List String := []
  tag_case_overrides : List String := []

/-- The external world of one video-page invocation. -/
structure VideoWorld where
  driver : Bool := false
  requestsResult : Option PyDoc := none
  seleniumResult : Nat → Option PyDoc := fun _ => none
  newDriverOk : Nat → Bool := fun _ => true
  retryRequests : Option PyDoc := none
  shouldIgnore : Bool := false
  smbFileExists : Bool := false
  smbNfoExists : Bool := false
  finalPathExists : Bool := false
  probeFinal : Option ProbeResult := none
  probeFinalFs : Int := 0
  downloadFileResult : Bool := false
  uid6 : String := "abcdef"

/-- Observable steps of a video-page invocation. -/
inductive VEvent where
  | fetchVideoPage
  | probeFile
  | removeFile
  | downloadAttempt
  | genNfo
  | uploadSmb
  | stateAdd (url : String)
deriving Repr, DecidableEq

def dvToV : DVEvent → VEvent
  | DVEvent.probeExisting => VEvent.probeFile
  | DVEvent.removeExisting => VEvent.removeFile
  | DVEvent.downloadAttempt => VEvent.downloadAttempt

/-- Embeds `has_metadata_selectors` (core.py:848-866, dict-config path):
some selector beyond title/download_url/image. -/
def hasMetadataSelectors (fields : List (String × FieldConfig)) : Bool :=
  !((fields.map Prod.fst).filter
      (fun f => !(f == "title" || f == "download_url" || f == "image"))).isEmpty

/-- Embeds `process_video_page` on the plain path.  Returns (the boolean the
function returns, the threaded state set, the events). -/
def process_video_page_plain (site : VideoSite) (gen : GeneralCfg) (w : VideoWorld)
    (url : String) (overwrite new_nfo do_not_ignore apply_state : Bool)
    (state : List String) : Bool × List String × List VEvent :=
  let fr := fetch_page site.use_selenium (site.use_selenium && w.driver)
    w.requestsResult w.seleniumResult w.newDriverOk
  let soupEv : Option PyDoc × List VEvent :=
    if fr.1.isNone && site.use_selenium then
      (w.retryRequests, [VEvent.fetchVideoPage, VEvent.fetchVideoPage])
    else (fr.1, [VEvent.fetchVideoPage])
  match soupEv.1 with
  | none => (false, state, soupEv.2)
  | some soup =>
      let ev := soupEv.2
      let raw0 := extract_data (some soup) site.ctx site.videoFields
      let title0 :=
        match raw0.lookup "title" with
        | some (PyVal.str t) => if pyStrip t ≠ "" then pyStrip t else "Untitled"
        | _ => "Untitled"
      let video_title :=
        if site.remove_title_string ≠ "" &&
            pyEndsWith title0 site.remove_title_string then
          pyRstrip ⟨title0.data.take (title0.length - site.remove_title_string.length)⟩
        else title0
      let raw1 := setKey (setKey raw0 "title" (PyVal.str video_title)) "url" (PyVal.str url)
      if ¬do_not_ignore ∧ w.shouldIgnore then (true, state, ev)
      else
        let fin := finalize_metadata raw1 gen.case_overrides gen.tag_case_overrides
        let finTitle :=
          match fin.lookup "title" with
          | some (PyVal.str t) => t
          | _ => ""
        let _file_name := construct_filename finTitle site.namePre site.nameSuf
          gen.extension gen.invalid_chars gen.max_chars site.unique_name
          gen.make_unique w.uid6
        match gen.destType with
        | DestType.smb =>
            if ¬overwrite ∧ w.smbFileExists then
              let su : List String × List VEvent :=
                if apply_state ∧ url ∉ state then
                  (state ++ [url], ev ++ [VEvent.stateAdd url])
                else (state, ev)
              let ev2 :=
                if gen.make_nfo ∧ hasMetadataSelectors site.videoFields ∧
                    ¬(new_nfo = true ∨ w.smbNfoExists = true) then
                  su.2 ++ [VEvent.genNfo, VEvent.uploadSmb]
                else su.2
              (true, su.1, ev2)
            else
              let dl : Bool × List VEvent :=
                if ¬overwrite ∧ w.finalPathExists then
                  match get_video_metadata w.probeFinal w.probeFinalFs with
                  | some _ => (true, ev ++ [VEvent.probeFile])
                  | none =>
                      let d := download_video false overwrite w.probeFinal
                        w.probeFinalFs w.downloadFileResult
                      (d.1, ev ++ VEvent.probeFile :: VEvent.removeFile :: d.2.map dvToV)
                else
                  let d := download_video w.finalPathExists overwrite w.probeFinal
                    w.probeFinalFs w.downloadFileResult
                  (d.1, ev ++ d.2.map dvToV)
              let ev3 :=
                if dl.1 ∧ gen.make_nfo ∧ hasMetadataSelectors site.videoFields then
                  dl.2 ++ [VEvent.genNfo]
                else dl.2
              let ev4 := if dl.1 then ev3 ++ [VEvent.uploadSmb] else ev3
              if dl.1 ∧ url ∉ state then
                (dl.1, state ++ [url], ev4 ++ [VEvent.stateAdd url])
              else (dl.1, state, ev4)
        | DestType.local =>
            let d := download_video w.finalPathExists overwrite w.probeFinal
              w.probeFinalFs w.downloadFileResult
            let ev3 :=
              if d.1 ∧ gen.make_nfo ∧ hasMetadataSelectors site.videoFields then
                ev ++ d.2.map dvToV ++ [VEvent.genNfo]
              else ev ++ d.2.map dvToV
            if d.1 ∧ url ∉ state then
              (d.1, state ++ [url], ev3 ++ [VEvent.stateAdd url])
            else (d.1, state, ev3)

/-! ### Concrete list/video configurations used by the C4/C5/C9 theorems -/

/-- A list item whose `href` attribute holds a relative video URL. -/
def itemUrlDoc : PyDoc :=
  PyDoc.mk { text := "item", attrs := [("href", "/v/1")] }
    (fun _ => []) (fun _ _ => []) (fun _ => [])

/-- A container holding that one item under `div.item`. -/
def listContainer : PyDoc :=
  PyDoc.mk { text := "", attrs := [] } (fun _ => []) (fun _ _ => [])
    (fun s => if s = "div.item" then [itemUrlDoc] else [])

/-- A list page whose `div.list` is the container. -/
def listDoc : PyDoc :=
  PyDoc.mk { text := "", attrs := [] } (fun _ => []) (fun _ _ => [])
    (fun s => if s = "div.list" then [listContainer] else [])

/-- A search mode with `max_pages = 3` and both URL templates. -/
def siteList : ListSite :=
  { base_url := "http://e.com",
    container_selector := SelectorVal.one "div.list",
    item_selector := "div.item",
    itemFields := [("url", FieldConfig.dict none none (some "href") none)],
    modes := [("search",
      { url_pattern := some "/s/{search}",
        url_pattern_pages := some "/s/{search}/{page}",
        scraper := "ls", max_pages := some 3 })] }

/-- A page world where the fetch succeeds and a next-page URL is always
constructible. -/
def okWorld : PageWorld :=
  { requestsResult := some listDoc,
    nextConstructed := some "http://e.com/s/q/2",
    urljoin := fun b p => b ++ p }

/-- A video page carrying a title under `h1`. -/
def titleDoc : PyDoc :=
  PyDoc.mk { text := "", attrs := [] }
    (fun s => if s = "h1" then [{ text := "T", attrs := [] }] else [])
    (fun _ _ => []) (fun _ => [])

def siteC5 : VideoSite := { videoFields := [("title", FieldConfig.plain "h1")] }

def genC5 : GeneralCfg := {}

def wC5 : VideoWorld := { requestsResult := some titleDoc, smbFileExists := true }

/-! ## Proof development: helper lemmas and the claim theorems -/

lemma lexLe_refl (a : Int × Int) : lexLe a a := Or.inr ⟨rfl, le_refl _⟩

lemma lexLe_trans {a b c : Int × Int} (h1 : lexLe a b) (h2 : lexLe b c) : lexLe a c := by
  unfold lexLe at *; omega

/-- `routerStep` rephrased through `patternMatches` and `patScore`. -/
lemma routerStep_eq (fp : String) (acc : RouterAcc) (m s p : String) :
    routerStep fp acc m s p =
      if patternMatches p fp then
        if (patScore p).1 > acc.bestCount ∨
            ((patScore p).1 = acc.bestCount ∧ (patScore p).2 > acc.bestLength) then
          { best := some (m, s), bestCount := (patScore p).1, bestLength := (patScore p).2 }
        else acc
      else acc := by
  unfold routerStep patternMatches patScore
  rcases pattern_to_regex p with ⟨comps, sc, sl, exact⟩
  rfl

lemma accOk_step (fp : String) (seen : List (String × String × String)) (acc : RouterAcc)
    (e : String × String × String) (h : AccOk fp seen acc) :
    AccOk fp (seen ++ [e]) (routerStep fp acc e.1 e.2.1 e.2.2) := by
  rw [routerStep_eq]
  by_cases hm : patternMatches e.2.2 fp
  · rw [if_pos hm]
    rcases h with ⟨hacc, hnone⟩ | ⟨w, hw, hwm, hbest, hbc, hbl, hmax⟩
    · subst hacc
      rw [if_pos (by left; exact lt_of_lt_of_le (by norm_num) (Int.ofNat_nonneg _))]
      refine Or.inr ⟨e, by simp, hm, rfl, rfl, rfl, ?_⟩
      intro e' he' he'm
      rcases List.mem_append.mp he' with h' | h'
      · exact absurd he'm (by simp [hnone e' h'])
      · simp only [List.mem_singleton] at h'; subst h'; exact lexLe_refl _
    · by_cases hlt : (patScore e.2.2).1 > acc.bestCount ∨
        ((patScore e.2.2).1 = acc.bestCount ∧ (patScore e.2.2).2 > acc.bestLength)
      · rw [if_pos hlt]
        refine Or.inr ⟨e, by simp, hm, rfl, rfl, rfl, ?_⟩
        intro e' he' he'm
        rcases List.mem_append.mp he' with h' | h'
        · refine lexLe_trans (hmax e' h' he'm) ?_
          unfold lexLe; rw [hbc, hbl] at hlt; omega
        · simp only [List.mem_singleton] at h'; subst h'; exact lexLe_refl _
      · rw [if_neg hlt]
        refine Or.inr ⟨w, List.mem_append.mpr (Or.inl hw), hwm, hbest, hbc, hbl, ?_⟩
        intro e' he' he'm
        rcases List.mem_append.mp he' with h' | h'
        · exact hmax e' h' he'm
        · simp only [List.mem_singleton] at h'; subst h'
          unfold lexLe; rw [hbc, hbl] at hlt; omega
  · rw [if_neg hm]
    rcases h with ⟨hacc, hnone⟩ | ⟨w, hw, hwm, hbest, hbc, hbl, hmax⟩
    · refine Or.inl ⟨hacc, ?_⟩
      intro e' he'
      rcases List.mem_append.mp he' with h' | h'
      · exact hnone e' h'
      · simp only [List.mem_singleton] at h'; subst h'
        exact Bool.eq_false_iff.mpr (by simpa using hm)
    · refine Or.inr ⟨w, List.mem_append.mpr (Or.inl hw), hwm, hbest, hbc, hbl, ?_⟩
      intro e' he' he'm
      rcases List.mem_append.mp he' with h' | h'
      · exact hmax e' h' he'm
      · simp only [List.mem_singleton] at h'; subst h'
        exact absurd he'm (by simpa using hm)

lemma accOk_foldl (fp : String) (l seen : List (String × String × String)) (acc : RouterAcc)
    (h : AccOk fp seen acc) :
    AccOk fp (seen ++ l) (l.foldl (fun a e => routerStep fp a e.1 e.2.1 e.2.2) acc) := by
  induction l generalizing seen acc with
  | nil => simpa using h
  | cons e rest ih =>
      have h1 := accOk_step fp seen acc e h
      have h2 := ih (seen ++ [e]) _ h1
      simpa using h2

/-- `routerMode` is the fold of `routerStep` over the entries of one mode. -/
lemma routerMode_eq (fp : String) (acc : RouterAcc) (mc : String × ModeConfig) :
    routerMode fp acc mc =
      (entriesOfMode mc).foldl (fun a e => routerStep fp a e.1 e.2.1 e.2.2) acc := by
  rcases mc with ⟨m, cfg⟩
  rcases cfg with ⟨up, upp, scr, mp⟩
  cases up <;> cases upp <;> rfl

lemma foldl_modes (fp : String) (l : List (String × ModeConfig)) (acc : RouterAcc) :
    l.foldl (routerMode fp) acc =
      ((l.map entriesOfMode).flatten).foldl (fun a e => routerStep fp a e.1 e.2.1 e.2.2) acc := by
  induction l generalizing acc with
  | nil => rfl
  | cons mc rest ih =>
      simp only [List.foldl_cons, List.map_cons, List.flatten_cons, List.foldl_append,
        routerMode_eq, ih]

/-- C1: for every site configuration and candidate URL whose normalized host
equals the site's normalized base host, if any non-"video" template matches
the normalized path then `match_url_to_mode` returns the `(mode, scraper)`
pair of an entry whose matching template attains the lexicographic maximum of
`(literal-segment-count, literal-length)` over all matching templates.
(The function is a pure Lean function, so determinism is inherent.)  Note the
claim's side assertion that `/cat/{id}` also matches `/cat/7/page/2` is false
— see the counterexample — since a non-`page` placeholder compiles to
`[^/?&#]+`, which cannot cross a `/`. -/
theorem C1_router_best_match (u : UrlParts) (site : RouterSite)
    (hnet : normNetloc u.netloc = normNetloc site.base_url.netloc)
    (hmatch : ∃ e ∈ routerEntries site, patternMatches e.2.2 (fullPathOf u) = true) :
    ∃ e ∈ routerEntries site,
      patternMatches e.2.2 (fullPathOf u) = true ∧
      match_url_to_mode u site = some (e.1, e.2.1) ∧
      ∀ e' ∈ routerEntries site, patternMatches e'.2.2 (fullPathOf u) = true →
        lexLe (patScore e'.2.2) (patScore e.2.2) := by
  have hAcc := accOk_foldl (fullPathOf u) (routerEntries site) []
    { best := none, bestCount := -1, bestLength := -1 }
    (Or.inl ⟨rfl, by intro e he; cases he⟩)
  rw [List.nil_append] at hAcc
  rcases hAcc with ⟨_, hnone⟩ | ⟨e, he, hm, hbest, hbc, hbl, hmax⟩
  · obtain ⟨e, he, hm⟩ := hmatch
    rw [hnone e he] at hm
    cases hm
  · refine ⟨e, he, hm, ?_, hmax⟩
    unfold match_url_to_mode
    rw [if_neg (by rw [hnet]; exact fun h => h rfl)]
    rw [foldl_modes]
    unfold routerEntries at hbest
    rw [hbest]

/-- Witness for C1 at a concrete two-mode configuration: against the path
`/cat/7/page/2`, only the `/cat/{id}/page/{page}` template matches, and its
mode is the one chosen. -/
theorem C1_router_best_match_witness :
    (∃ e ∈ routerEntries
        { base_url := { netloc := "ex.com", path := "", query := "" },
          modes := [("cat", { url_pattern := some "/cat/{id}", scraper := "scrA" }),
                    ("catp", { url_pattern := some "/cat/{id}/page/{page}", scraper := "scrB" }),
                    ("video", { url_pattern := some "/v/{video}", scraper := "scrV" })] },
      patternMatches e.2.2
        (fullPathOf { netloc := "www.EX.com", path := "/cat/7/page/2/", query := "" }) = true ∧
      match_url_to_mode
        { netloc := "www.EX.com", path := "/cat/7/page/2/", query := "" }
        { base_url := { netloc := "ex.com", path := "", query := "" },
          modes := [("cat", { url_pattern := some "/cat/{id}", scraper := "scrA" }),
                    ("catp", { url_pattern := some "/cat/{id}/page/{page}", scraper := "scrB" }),
                    ("video", { url_pattern := some "/v/{video}", scraper := "scrV" })] }
        = some (e.1, e.2.1) ∧
      ∀ e' ∈ routerEntries
        { base_url := { netloc := "ex.com", path := "", query := "" },
          modes := [("cat", { url_pattern := some "/cat/{id}", scraper := "scrA" }),
                    ("catp", { url_pattern := some "/cat/{id}/page/{page}", scraper := "scrB" }),
                    ("video", { url_pattern := some "/v/{video}", scraper := "scrV" })] },
        patternMatches e'.2.2
          (fullPathOf { netloc := "www.EX.com", path := "/cat/7/page/2/", query := "" }) = true →
          lexLe (patScore e'.2.2) (patScore e.2.2)) ∧
    match_url_to_mode
      { netloc := "www.EX.com", path := "/cat/7/page/2/", query := "" }
      { base_url := { netloc := "ex.com", path := "", query := "" },
        modes := [("cat", { url_pattern := some "/cat/{id}", scraper := "scrA" }),
                  ("catp", { url_pattern := some "/cat/{id}/page/{page}", scraper := "scrB" }),
                  ("video", { url_pattern := some "/v/{video}", scraper := "scrV" })] }
      = some ("catp", "scrB") :=
  ⟨C1_router_best_match _ _ (by decide)
    ⟨("catp", "scrB", "/cat/{id}/page/{page}"), by decide, by decide⟩, by decide⟩

/-- Counterexample to C1 as stated: the template `/cat/{id}` does NOT match
the path `/cat/7/page/2` (its `{id}` placeholder compiles to `[^/?&#]+` and
cannot span a `/`), so the claim's premise that both templates match is false. -/
theorem C1_counterexample :
    patternMatches "/cat/{id}" "/cat/7/page/2" = false := by decide

/-- C2: a probed file reporting positive duration `d` and size `s` with
`s / d` below the 10240 bytes-per-second floor yields no metadata, and
`download_video` on such an existing file removes it and attempts a
redownload instead of keeping it. -/
theorem C2_validation_gate (fmt : ProbeFormat) (streams : List ProbeStream)
    (fsSize : Int) (d : ℚ) (s : Int) (r : Bool)
    (hd : fmt.duration = some d) (hs : fmt.size = some s)
    (hpos : 0 < d) (hratio : (s : ℚ) / d < 10240) :
    get_video_metadata (some { format := fmt, streams := streams }) fsSize = none ∧
    download_video true false (some { format := fmt, streams := streams }) fsSize r =
      (r, [DVEvent.probeExisting, DVEvent.removeExisting, DVEvent.downloadAttempt]) := by
  have hmeta : get_video_metadata (some { format := fmt, streams := streams }) fsSize = none := by
    simp only [get_video_metadata, hd, hs, Option.getD_some]
    rw [if_pos ⟨hpos, hratio⟩]
  refine ⟨hmeta, ?_⟩
  unfold download_video
  rw [hmeta]
  rfl

/-- Witness for C2 at the claim's concrete numbers: 10 seconds and 1024
bytes are rejected and a redownload is attempted. -/
theorem C2_validation_gate_witness :
    get_video_metadata
      (some { format := { duration := some 10, size := some 1024 }, streams := [] }) 0 = none ∧
    download_video true false
      (some { format := { duration := some 10, size := some 1024 }, streams := [] }) 0 true =
      (true, [DVEvent.probeExisting, DVEvent.removeExisting, DVEvent.downloadAttempt]) :=
  C2_validation_gate _ _ 0 10 1024 true rfl rfl (by norm_num) (by norm_num)

/-- C8: `download_file` renames the temporary file to the destination exactly
when the download succeeded and validation passed; on a failed download or
failed validation the temporary file (if present) is removed and no rename —
hence no write to the final destination — ever happens. -/
theorem C8_download_file_atomic (urlEmpty methodKnown downloadSuccess tempExistsAfter : Bool)
    (tempProbe : Option ProbeResult) (tempFsSize : Int) :
    (DFEvent.renameTempToFinal ∈
        (download_file urlEmpty methodKnown downloadSuccess tempExistsAfter tempProbe tempFsSize).2
      ↔ (urlEmpty = false ∧ methodKnown = true ∧ downloadSuccess = true ∧
          tempExistsAfter = true ∧
          (get_video_metadata tempProbe tempFsSize).isSome = true)) ∧
    ((download_file urlEmpty methodKnown downloadSuccess tempExistsAfter tempProbe tempFsSize).1 = true
      ↔ DFEvent.renameTempToFinal ∈
          (download_file urlEmpty methodKnown downloadSuccess tempExistsAfter tempProbe tempFsSize).2) ∧
    ((downloadSuccess = false ∨ get_video_metadata tempProbe tempFsSize = none) →
      urlEmpty = false → methodKnown = true → tempExistsAfter = true →
      DFEvent.removeTemp ∈
          (download_file urlEmpty methodKnown downloadSuccess tempExistsAfter tempProbe tempFsSize).2 ∧
        DFEvent.renameTempToFinal ∉
          (download_file urlEmpty methodKnown downloadSuccess tempExistsAfter tempProbe tempFsSize).2) := by
  cases urlEmpty <;> cases methodKnown <;> cases downloadSuccess <;> cases tempExistsAfter <;>
    rcases hmv : get_video_metadata tempProbe tempFsSize with _ | v <;>
      simp [download_file, hmv]

/-- Witness for C8: a failed download with the temporary file present has it
removed, and nothing is renamed. -/
theorem C8_download_file_atomic_witness :
    DFEvent.removeTemp ∈ (download_file false true false true none 0).2 ∧
      DFEvent.renameTempToFinal ∉ (download_file false true false true none 0).2 :=
  (C8_download_file_atomic false true false true none 0).2.2 (Or.inl rfl) rfl rfl rfl

/-- C3: the generic yt-dlp stage always runs first; when it succeeds (yields
files) the direct-detection stage is never invoked and the chain reports
success; the detection stage appears only directly after the yt-dlp stage;
and a failure report happens only after both stages ran and the detection
stage also failed. -/
theorem C3_fallback_ordering (procExit0 : Bool) (parsed listdirAfter : List String)
    (detectResult : Bool) :
    ((process_fallback_download
        (download_with_ytdlp_fallback procExit0 parsed listdirAfter) detectResult).2.head?
      = some FbEvent.ytdlpStage) ∧
    ((download_with_ytdlp_fallback procExit0 parsed listdirAfter).1 = true →
      (download_with_ytdlp_fallback procExit0 parsed listdirAfter).2 ≠ [] →
      process_fallback_download
          (download_with_ytdlp_fallback procExit0 parsed listdirAfter) detectResult
        = (true, [FbEvent.ytdlpStage, FbEvent.storeFiles])) ∧
    (FbEvent.detectStage ∈
        (process_fallback_download
          (download_with_ytdlp_fallback procExit0 parsed listdirAfter) detectResult).2 →
      (process_fallback_download
          (download_with_ytdlp_fallback procExit0 parsed listdirAfter) detectResult).2
        = [FbEvent.ytdlpStage, FbEvent.detectStage]) ∧
    ((process_fallback_download
        (download_with_ytdlp_fallback procExit0 parsed listdirAfter) detectResult).1 = false →
      (process_fallback_download
          (download_with_ytdlp_fallback procExit0 parsed listdirAfter) detectResult).2
        = [FbEvent.ytdlpStage, FbEvent.detectStage] ∧ detectResult = false) := by
  rcases hyt : download_with_ytdlp_fallback procExit0 parsed listdirAfter with ⟨ok, files⟩
  cases ok <;> rcases files with _ | ⟨f, fs⟩ <;> cases detectResult <;>
    simp [process_fallback_download]

/-- Witness for C3: with a successful yt-dlp stage producing one file, the
chain stores the files and never reaches detection. -/
theorem C3_fallback_ordering_witness :
    process_fallback_download
        (download_with_ytdlp_fallback true ["a.mp4"] []) false
      = (true, [FbEvent.ytdlpStage, FbEvent.storeFiles]) :=
  (C3_fallback_ordering true ["a.mp4"] [] false).2.1 (by decide) (by decide)

/-! ### Dedup lemmas for C7 -/

lemma dedupCIAux_sublist (vs : List String) :
    ∀ seen, (dedupCIAux seen vs).Sublist vs := by
  induction vs with
  | nil => intro seen; simp [dedupCIAux]
  | cons v vs ih =>
      intro seen
      unfold dedupCIAux
      by_cases h : pyLower v ∈ seen
      · rw [if_pos h]; exact (ih seen).cons v
      · rw [if_neg h]; exact (ih _).cons₂ v

lemma dedupCIAux_lower_not_seen (vs : List String) :
    ∀ seen, ∀ x ∈ dedupCIAux seen vs, pyLower x ∉ seen := by
  induction vs with
  | nil => intro seen x hx; cases hx
  | cons v vs ih =>
      intro seen x hx
      unfold dedupCIAux at hx
      by_cases h : pyLower v ∈ seen
      · rw [if_pos h] at hx; exact ih seen x hx
      · rw [if_neg h] at hx
        rcases List.mem_cons.mp hx with rfl | hx'
        · exact h
        · have := ih (pyLower v :: seen) x hx'
          exact fun hc => this (List.mem_cons_of_mem _ hc)

lemma dedupCIAux_nodup (vs : List String) :
    ∀ seen, ((dedupCIAux seen vs).map pyLower).Nodup := by
  induction vs with
  | nil => intro seen; simp [dedupCIAux]
  | cons v vs ih =>
      intro seen
      unfold dedupCIAux
      by_cases h : pyLower v ∈ seen
      · rw [if_pos h]; exact ih seen
      · rw [if_neg h]
        refine List.nodup_cons.mpr ⟨?_, ih _⟩
        intro hc
        rcases List.mem_map.mp hc with ⟨x, hx, hlx⟩
        exact dedupCIAux_lower_not_seen vs _ x hx (by rw [hlx]; exact List.mem_cons_self _ _)

lemma dedupCIAux_covers (vs : List String) :
    ∀ seen, ∀ v ∈ vs, pyLower v ∈ seen ∨ pyLower v ∈ (dedupCIAux seen vs).map pyLower := by
  induction vs with
  | nil => intro seen v hv; cases hv
  | cons w vs ih =>
      intro seen v hv
      unfold dedupCIAux
      rcases List.mem_cons.mp hv with rfl | hv'
      · by_cases h : pyLower v ∈ seen
        · exact Or.inl h
        · right; rw [if_neg h]; exact List.mem_map_of_mem pyLower (List.mem_cons_self _ _)
      · by_cases h : pyLower w ∈ seen
        · rw [if_pos h]; exact ih seen v hv'
        · rw [if_neg h]
          rcases ih (pyLower w :: seen) v hv' with hmem | hmem
          · rcases List.mem_cons.mp hmem with heq | hmem'
            · right; rw [heq]; exact List.mem_map_of_mem pyLower (List.mem_cons_self _ _)
            · exact Or.inl hmem'
          · right; exact List.mem_cons_of_mem _ hmem

lemma dedupCIAux_first_casing (vs : List String) :
    ∀ seen, ∀ w ∈ dedupCIAux seen vs,
      vs.find? (fun x => pyLower x == pyLower w) = some w := by
  induction vs with
  | nil => intro seen w hw; cases hw
  | cons v vs ih =>
      intro seen w hw
      unfold dedupCIAux at hw
      by_cases h : pyLower v ∈ seen
      · rw [if_pos h] at hw
        have hne : pyLower v ≠ pyLower w := by
          intro he
          exact dedupCIAux_lower_not_seen vs seen w hw (he ▸ h)
        rw [List.find?_cons_of_neg _ (by simpa using hne)]
        exact ih seen w hw
      · rw [if_neg h] at hw
        rcases List.mem_cons.mp hw with rfl | hw'
        · exact List.find?_cons_of_pos _ (by simp)
        · have hns := dedupCIAux_lower_not_seen vs _ w hw'
          have hne : pyLower v ≠ pyLower w := by
            intro he
            exact hns (he ▸ List.mem_cons_self _ _)
          rw [List.find?_cons_of_neg _ (by simpa using hne)]
          exact ih _ w hw'

/-- A field whose selection came back empty stores the empty string. -/
lemma extractField_empty_sel (doc : PyDoc) (ctx : ExtractCtx) (field : String)
    (cfg : FieldConfig)
    (hskip : (field == "download_url" && ctx.m3u8_mode) = false)
    (hempty : selectElements doc ctx cfg = []) :
    extractField doc ctx field cfg = some (PyVal.str "") := by
  unfold extractField
  rw [hskip, hempty]
  simp

/-- C6 (amended): for every field whose selector matches no elements — apart
from `download_url` under a stream-sniffing mode, which is skipped outright —
the resulting record contains the field bound to the empty string `''`.
This holds for multi-value fields (tags/actors/studios) too: they also get
`''`, not the empty list the claim stated — see the counterexample. -/
theorem C6_extraction_totality (doc : PyDoc) (ctx : ExtractCtx) (field : String)
    (cfg : FieldConfig)
    (hskip : (field == "download_url" && ctx.m3u8_mode) = false)
    (hempty : selectElements doc ctx cfg = []) :
    ∀ selectors : List (String × FieldConfig), (field, cfg) ∈ selectors →
      (field, PyVal.str "") ∈ extract_data (some doc) ctx selectors := by
  intro selectors
  induction selectors with
  | nil => intro h; cases h
  | cons fc rest ih =>
      intro hmem
      obtain ⟨f, c⟩ := fc
      show (field, PyVal.str "") ∈ extractFields doc ctx ((f, c) :: rest)
      rcases List.mem_cons.mp hmem with heq | htail
      · injection heq with h1 h2
        subst h1; subst h2
        unfold extractFields
        rw [extractField_empty_sel doc ctx field cfg hskip hempty]
        exact List.mem_cons_self _ _
      · unfold extractFields
        cases hcall : extractField doc ctx f c with
        | none => exact ih htail
        | some v => exact List.mem_cons_of_mem _ (ih htail)

/-- Witness for C6: with a document where nothing matches, the multi-value
field `tags` is present and bound to `''`. -/
theorem C6_extraction_totality_witness :
    ("tags", PyVal.str "") ∈ extract_data (some emptySelDoc) defaultCtx
      [("title", FieldConfig.plain "h1"),
       ("tags", FieldConfig.dict none (some (SelectorVal.one "ul li")) none none)] :=
  C6_extraction_totality emptySelDoc defaultCtx "tags"
    (FieldConfig.dict none (some (SelectorVal.one "ul li")) none none)
    (by decide) (by decide) _ (by decide)

/-- Counterexample to C6 as stated: a `tags` selector matching nothing yields
the empty string `''`, which is not the empty list the claim requires for
multi-value fields (core.py:276-277 stores `''` for every field). -/
theorem C6_counterexample :
    extract_data (some emptySelDoc) defaultCtx
        [("tags", FieldConfig.dict none (some (SelectorVal.one "ul li")) none none)]
      = [("tags", PyVal.str "")] ∧
    PyVal.str "" ≠ PyVal.list [] :=
  ⟨rfl, by decide⟩

/-- C7: (1) the case-insensitive dedup is order-preserving (a sublist of the
input), produces no two values equal modulo lowercasing, covers every input
value, and keeps the first-seen casing of each class; (2) for a multi-value
field extracted without attribute extraction, the stored value is the
post-processing chain applied to the *deduplicated* selection — dedup happens
after selection and before post-processing; (3) extracting tags `A`,`a`,`B`
and finalizing yields `["A", "B"]`; (4) with attribute extraction the
deduplication is skipped. -/
theorem C7_dedup_correctness :
    (∀ vs : List String,
      (dedupCI vs).Sublist vs ∧
      ((dedupCI vs).map pyLower).Nodup ∧
      (∀ v ∈ vs, pyLower v ∈ (dedupCI vs).map pyLower) ∧
      (∀ w ∈ dedupCI vs, vs.find? (fun x => pyLower x == pyLower w) = some w)) ∧
    (∀ (doc : PyDoc) (ctx : ExtractCtx) (field : String) (sv : SelectorVal)
        (steps : List PostStep),
      isMultiValueField field = true →
      (field == "download_url" && ctx.m3u8_mode) = false →
      extractField doc ctx field (FieldConfig.dict none (some sv) none (some steps)) =
        (if (selectElements doc ctx
              (FieldConfig.dict none (some sv) none (some steps))).isEmpty then
          some (PyVal.str "")
        else
          some (
            let v := steps.foldl
              (applyPostStep ctx.resub
                (selectElements doc ctx (FieldConfig.dict none (some sv) none (some steps))))
              (PyVal.list (multiValueDedup
                (selectElements doc ctx (FieldConfig.dict none (some sv) none (some steps)))))
            if v.truthyOrList then v else PyVal.str ""))) ∧
    ((finalize_metadata
        (extract_data (some sampleTagsDoc) defaultCtx
          [("tags", FieldConfig.dict none (some (SelectorVal.one "ul li")) none none)])
        [] []).lookup "tags" = some (PyVal.list ["A", "B"])) ∧
    (extract_data (some sampleTagsDoc) defaultCtx
        [("tags", FieldConfig.dict none (some (SelectorVal.one "ul li")) (some "data-q") none)]
      = [("tags", PyVal.list ["1", "2", "3"])]) := by
  refine ⟨?_, ?_, by decide, by decide⟩
  · intro vs
    exact ⟨dedupCIAux_sublist vs [], dedupCIAux_nodup vs [],
      fun v hv => (dedupCIAux_covers vs [] v hv).resolve_left (by simp),
      fun w hw => dedupCIAux_first_casing vs [] w hw⟩
  · intro doc ctx field sv steps hm hskip
    unfold extractField
    rw [hskip]
    simp only [Bool.false_eq_true, if_false]
    by_cases hempty : (selectElements doc ctx
        (FieldConfig.dict none (some sv) none (some steps))).isEmpty
    · simp [hempty]
    · simp [hempty, hm, FieldConfig.attributeKey, FieldConfig.postProcessKey, FieldConfig.isDict]

/-- Witness for C7: the dedup of `["A","a","B"]` keeps `A` (first casing) and
covers `a`; the full extraction of the sample document stores the deduplicated
list. -/
theorem C7_dedup_correctness_witness :
    pyLower "a" ∈ (dedupCI ["A", "a", "B"]).map pyLower ∧
    (["A", "a", "B"].find? (fun x => pyLower x == pyLower "A") = some "A") ∧
    extractField sampleTagsDoc defaultCtx "tags"
        (FieldConfig.dict none (some (SelectorVal.one "ul li")) none (some [])) =
      some (PyVal.list ["A", "B"]) := by
  have h := C7_dedup_correctness
  refine ⟨(h.1 ["A", "a", "B"]).2.2.1 "a" (by decide),
    (h.1 ["A", "a", "B"]).2.2.2 "A" (by decide), ?_⟩
  have h2 := h.2.1 sampleTagsDoc defaultCtx "tags" (SelectorVal.one "ul li") []
    (by decide) (by decide)
  rw [h2]
  decide

lemma pyRstrip_length_le (s : String) : (pyRstrip s).length ≤ s.length := by
  show ((s.data.reverse.dropWhile Char.isWhitespace).reverse).length ≤ s.data.length
  rw [List.length_reverse]
  calc (s.data.reverse.dropWhile Char.isWhitespace).length
      ≤ s.data.reverse.length :=
        (List.dropWhile_suffix Char.isWhitespace).sublist.length_le
    _ = s.data.length := List.length_reverse _

lemma trimStep_length_lt (namePre nameSuf uid ext t : String) (h : t ≠ "") :
    (trimStep namePre nameSuf uid ext t).length < t.length := by
  have hdata : t.data ≠ [] := by
    intro hd
    apply h
    cases t
    simp only at hd
    simp [hd]
  have hpos : 0 < t.length := by
    show 0 < t.data.length
    exact List.length_pos.mpr hdata
  unfold trimStep
  refine lt_of_le_of_lt (pyRstrip_length_le _) ?_
  show (t.data.take _).length < t.length
  rw [List.length_take]
  have : t.data.length = t.length := rfl
  omega

lemma trimLoop_bytes (namePre nameSuf uid ext : String) :
    ∀ fuel t, t.length < fuel →
      (buildFilename namePre "" nameSuf uid ext).utf8ByteSize ≤ 255 →
      (buildFilename namePre (trimLoop namePre nameSuf uid ext fuel t)
          nameSuf uid ext).utf8ByteSize ≤ 255 := by
  intro fuel
  induction fuel with
  | zero => intro t ht; omega
  | succ n ih =>
      intro t ht hfix
      unfold trimLoop
      by_cases hg : 255 < (buildFilename namePre t nameSuf uid ext).utf8ByteSize
      · rw [if_pos hg]
        have htne : t ≠ "" := by
          rintro rfl
          exact absurd hg (not_lt.mpr hfix)
        have hlt := trimStep_length_lt namePre nameSuf uid ext t htne
        exact ih _ (by omega) hfix
      · rw [if_neg hg]
        exact not_lt.mp hg

set_option maxRecDepth 4000 in
/-- C10: the claim fails on the code.  With a configuration whose fixed parts
(prefix + suffix + unique id + extension) alone exceed 255 UTF-8 bytes, the
byte-length trim loop reaches the empty title, where its step is the identity
while its guard stays true — the source loops forever (conjuncts 1 and 2:
for every amount of fuel the loop is still stuck at `""` with the filename
over 255 bytes).  Conjunct 3 is the claim's intent, which holds whenever the
fixed parts fit in 255 bytes: the result is then at most 255 UTF-8 bytes. -/
theorem C10_filename_trim_loop :
    (∀ fuel, trimLoop aPre300 "" "" ".mp4" fuel "" = "") ∧
    255 < (buildFilename aPre300 "" "" "" ".mp4").utf8ByteSize ∧
    (∀ (title namePre nameSuf ext uid6 : String) (invalid_chars : List String)
        (max_chars : Nat) (unique_name make_unique : Bool),
      (buildFilename namePre "" nameSuf
          (uniqueIdOf unique_name make_unique uid6) ext).utf8ByteSize ≤ 255 →
      (construct_filename title namePre nameSuf ext invalid_chars max_chars
          unique_name make_unique uid6).utf8ByteSize ≤ 255) := by
  have hstep : trimStep aPre300 "" "" ".mp4" "" = "" := by decide
  refine ⟨?_, by decide, ?_⟩
  · intro fuel
    induction fuel with
    | zero => rfl
    | succ n ih =>
        unfold trimLoop
        rw [if_pos (by decide), hstep, ih]
  · intro title namePre nameSuf ext uid6 invalid_chars max_chars un mk hfix
    simp only [construct_filename]
    exact trimLoop_bytes namePre nameSuf _ ext _ _ (Nat.lt_succ_self _) hfix

/-- Witness for C10's bounded conjunct: an ordinary configuration stays
within 255 bytes. -/
theorem C10_filename_trim_loop_witness :
    (construct_filename "Some Title" "[X] " "" ".mp4" [] 255 false false
        "abc123").utf8ByteSize ≤ 255 :=
  C10_filename_trim_loop.2.2 "Some Title" "[X] " "" ".mp4" "abc123" [] 255 false false
    (by decide)

/-! ### Pagination lemmas (C4) -/

lemma paginationNext_ge (site : ListSite) (w : PageWorld) (soup : PyDoc) (mode : String)
    (page : Nat) (mcfg : ModeConfig) (m : Nat)
    (hl : site.modes.lookup mode = some mcfg)
    (hm : effMaxPages mcfg site = some m) (hge : m ≤ page) :
    paginationNext site w soup mode page = none := by
  unfold paginationNext
  rw [hl]
  dsimp only
  rw [hm]
  dsimp only
  rw [if_pos hge]

lemma paginationNext_some (site : ListSite) (w : PageWorld) (soup : PyDoc) (mode : String)
    (page : Nat) (u : String) (p2 : Nat)
    (h : paginationNext site w soup mode page = some (u, p2)) :
    p2 = page + 1 ∧ ∀ mcfg m, site.modes.lookup mode = some mcfg →
      effMaxPages mcfg site = some m → page < m := by
  unfold paginationNext at h
  cases hl : site.modes.lookup mode with
  | none => rw [hl] at h; cases h
  | some mcfg =>
      rw [hl] at h
      dsimp only at h
      cases hm : effMaxPages mcfg site with
      | none =>
          rw [hm] at h
          dsimp only at h
          rcases Option.bind_eq_some.mp h with ⟨u', hu', hif⟩
          refine ⟨?_, ?_⟩
          · by_cases hne : u' ≠ ""
            · rw [if_pos hne] at hif
              injection hif with h2
              exact (Prod.mk.injEq _ _ _ _ |>.mp h2).2.symm
            · rw [if_neg hne] at hif; cases hif
          · intro mcfg' m hl' hm'
            injection hl' with he
            subst he
            rw [hm] at hm'
            cases hm'
      | some m =>
          rw [hm] at h
          dsimp only at h
          by_cases hge : m ≤ page
          · rw [if_pos hge] at h; cases h
          · rw [if_neg hge] at h
            rcases Option.bind_eq_some.mp h with ⟨u', hu', hif⟩
            refine ⟨?_, ?_⟩
            · by_cases hne : u' ≠ ""
              · rw [if_pos hne] at hif
                injection hif with h2
                exact (Prod.mk.injEq _ _ _ _ |>.mp h2).2.symm
              · rw [if_neg hne] at hif; cases hif
            · intro mcfg' m' hl' hm'
              injection hl' with he
              subst he
              rw [hm] at hm'
              injection hm' with he'
              subst he'
              exact lt_of_not_ge hge

lemma plp_next_some (site : ListSite) (w : PageWorld)
    (pv : String → List String → Bool × List String)
    (page off : Nat) (mode : String) (o n : Bool) (st : List String)
    (u : String) (p2 : Nat)
    (h : (process_list_page site w pv page off mode o n st).next = some (u, p2)) :
    p2 = page + 1 ∧ ∀ mcfg m, site.modes.lookup mode = some mcfg →
      effMaxPages mcfg site = some m → page < m := by
  simp only [process_list_page] at h
  cases hf : (fetch_page site.use_selenium site.driverAvailable w.requestsResult
      w.seleniumResult w.newDriverOk).1 with
  | none => rw [hf] at h; cases h
  | some soup =>
      rw [hf] at h
      dsimp only at h
      cases hc : containerOf soup site.container_selector with
      | none => rw [hc] at h; cases h
      | some container =>
          rw [hc] at h
          dsimp only at h
          by_cases hi : (container.selectDocs site.item_selector).isEmpty
          · rw [if_pos hi] at h; cases h
          · rw [if_neg hi] at h
            exact paginationNext_some site w soup mode page u p2 h

lemma listLoop_count (site : ListSite) (worlds : Nat → PageWorld)
    (pv : String → List String → Bool × List String) (mode : String) (o n : Bool)
    (mcfg : ModeConfig) (N : Nat)
    (hl : site.modes.lookup mode = some mcfg)
    (hm : effMaxPages mcfg site = some N) :
    ∀ fuel urlOpt page off st succ,
      (listLoop site worlds pv mode o n fuel urlOpt page off st succ).2.2 ≤
        max 1 (N + 1 - page) := by
  intro fuel
  induction fuel with
  | zero =>
      intro urlOpt page off st succ
      simp [listLoop]
  | succ f ih =>
      intro urlOpt page off st succ
      cases urlOpt with
      | none => simp [listLoop]
      | some url =>
          simp only [listLoop]
          by_cases hu : url = ""
          · rw [if_pos hu]; simp
          · rw [if_neg hu]
            cases hn : (process_list_page site (worlds page) pv page off mode o n st).next with
            | none => simp
            | some up =>
                rcases up with ⟨u, p2⟩
                obtain ⟨hp2, hlt⟩ := plp_next_some site (worlds page) pv page off mode o n st u p2 hn
                have hpn : page < N := hlt mcfg N hl hm
                subst hp2
                have hrec := ih (some u) (page + 1) 0
                  (process_list_page site (worlds page) pv page off mode o n st).state
                  (succ || (process_list_page site (worlds page) pv page off mode o n st).success)
                dsimp only
                omega

/-! ### Item-loop and state lemmas (C5, C9) -/

lemma itemLoop_state_mono (site : ListSite)
    (pv : String → List String → Bool × List String) (w : PageWorld)
    (off : Nat) (o n : Bool) :
    ∀ items (i : Nat) st (succ : Bool) (u : String), u ∈ st →
      u ∈ (itemLoop site pv w off o n i st succ items).2.1 := by
  intro items
  induction items with
  | nil => intro i st succ u hu; simpa [itemLoop] using hu
  | cons item rest ih =>
      intro i st succ u hu
      unfold itemLoop
      by_cases h1 : 0 < off ∧ i < off
      · rw [if_pos h1]; exact ih _ _ _ u hu
      · rw [if_neg h1]
        cases hr : resolveItemUrl w.urljoin site.base_url w.constructVideoUrl
            (extract_data (some item) site.ctx site.itemFields) with
        | none => exact ih _ _ _ u hu
        | some vurl =>
            dsimp only
            by_cases h2 : vurl ∈ st ∧ (o || n) = false
            · rw [if_pos h2]
              exact ih _ _ _ u hu
            · rw [if_neg h2]
              exact ih _ _ _ u (List.mem_append_left _ hu)

lemma itemLoop_succ_true (site : ListSite)
    (pv : String → List String → Bool × List String) (w : PageWorld)
    (off : Nat) (o n : Bool) :
    ∀ items (i : Nat) st,
      (itemLoop site pv w off o n i st true items).1 = true := by
  intro items
  induction items with
  | nil => intro i st; rfl
  | cons item rest ih =>
      intro i st
      unfold itemLoop
      by_cases h1 : 0 < off ∧ i < off
      · rw [if_pos h1]; exact ih _ _
      · rw [if_neg h1]
        cases hr : resolveItemUrl w.urljoin site.base_url w.constructVideoUrl
            (extract_data (some item) site.ctx site.itemFields) with
        | none => exact ih _ _
        | some vurl =>
            dsimp only
            by_cases h2 : vurl ∈ st ∧ (o || n) = false
            · rw [if_pos h2]; exact ih _ _
            · rw [if_neg h2]
              simp only [Bool.true_or]
              exact ih _ _

lemma plp_state_mono (site : ListSite) (w : PageWorld)
    (pv : String → List String → Bool × List String)
    (page off : Nat) (mode : String) (o n : Bool) (st : List String)
    (u : String) (hu : u ∈ st) :
    u ∈ (process_list_page site w pv page off mode o n st).state := by
  simp only [process_list_page]
  cases hf : (fetch_page site.use_selenium site.driverAvailable w.requestsResult
      w.seleniumResult w.newDriverOk).1 with
  | none => exact hu
  | some soup =>
      dsimp only
      cases hc : containerOf soup site.container_selector with
      | none => exact hu
      | some container =>
          dsimp only
          by_cases hi : (container.selectDocs site.item_selector).isEmpty
          · rw [if_pos hi]; exact hu
          · rw [if_neg hi]
            exact itemLoop_state_mono site pv w off o n _ 1 st false u hu

lemma listLoop_state_mono (site : ListSite) (worlds : Nat → PageWorld)
    (pv : String → List String → Bool × List String) (mode : String) (o n : Bool) :
    ∀ fuel urlOpt page off st succ (u : String), u ∈ st →
      u ∈ (listLoop site worlds pv mode o n fuel urlOpt page off st succ).2.1 := by
  intro fuel
  induction fuel with
  | zero => intro urlOpt page off st succ u hu; simpa [listLoop] using hu
  | succ f ih =>
      intro urlOpt page off st succ u hu
      cases urlOpt with
      | none => simpa [listLoop] using hu
      | some url =>
          simp only [listLoop]
          by_cases hu0 : url = ""
          · rw [if_pos hu0]; exact hu
          · rw [if_neg hu0]
            cases hn : (process_list_page site (worlds page) pv page off mode o n st).next with
            | none =>
                exact plp_state_mono site (worlds page) pv page off mode o n st u hu
            | some up =>
                rcases up with ⟨u2, p2⟩
                exact ih (some u2) p2 0 _ _ u
                  (plp_state_mono site (worlds page) pv page off mode o n st u hu)

lemma listLoop_succ_true (site : ListSite) (worlds : Nat → PageWorld)
    (pv : String → List String → Bool × List String) (mode : String) (o n : Bool) :
    ∀ fuel urlOpt page off st,
      (listLoop site worlds pv mode o n fuel urlOpt page off st true).1 = true := by
  intro fuel
  induction fuel with
  | zero => intro urlOpt page off st; rfl
  | succ f ih =>
      intro urlOpt page off st
      cases urlOpt with
      | none => rfl
      | some url =>
          simp only [listLoop]
          by_cases hu0 : url = ""
          · rw [if_pos hu0]
          · rw [if_neg hu0]
            cases hn : (process_list_page site (worlds page) pv page off mode o n st).next with
            | none => simp
            | some up =>
                rcases up with ⟨u2, p2⟩
                simp only [Bool.true_or]
                exact ih (some u2) p2 0 _

/-- C4: for a mode whose effective `max_pages` is `N ≥ 1`, the list-page loop
started at page 1 performs at most `N` page fetches (whatever the per-page
worlds offer), and at any page number `≥ N` the pagination decision yields no
next-page URL, no matter what URL the pattern or the next-link selector could
still produce. -/
theorem C4_pagination_termination (site : ListSite) (worlds : Nat → PageWorld)
    (pv : String → List String → Bool × List String) (mode : String)
    (o n : Bool) (mcfg : ModeConfig) (N : Nat)
    (hl : site.modes.lookup mode = some mcfg)
    (hm : effMaxPages mcfg site = some N) (hN : 1 ≤ N) :
    (∀ fuel url off st succ,
      (listLoop site worlds pv mode o n fuel (some url) 1 off st succ).2.2 ≤ N) ∧
    (∀ (w : PageWorld) (soup : PyDoc) (page : Nat), N ≤ page →
      paginationNext site w soup mode page = none) := by
  constructor
  · intro fuel url off st succ
    have h := listLoop_count site worlds pv mode o n mcfg N hl hm fuel (some url) 1 off st succ
    have hmax : max 1 (N + 1 - 1) = N := by
      rw [Nat.add_sub_cancel]
      exact Nat.max_eq_right hN
    rw [hmax] at h
    exact h
  · intro w soup page hge
    exact paginationNext_ge site w soup mode page mcfg N hl hm hge

/-- Witness for C4 at `max_pages = 3`: the loop fetches at most 3 pages (and
with always-constructible next pages it fetches exactly 3), and at page 3 no
next URL is produced although `nextConstructed` still offers one. -/
theorem C4_pagination_termination_witness :
    (listLoop siteList (fun _ => okWorld) (fun _ _ => (true, [])) "search" false false
        10 (some "http://e.com/s/q") 1 0 [] false).2.2 ≤ 3 ∧
    paginationNext siteList okWorld listDoc "search" 3 = none ∧
    (listLoop siteList (fun _ => okWorld) (fun _ _ => (true, [])) "search" false false
        10 (some "http://e.com/s/q") 1 0 [] false).2.2 = 3 :=
  ⟨(C4_pagination_termination siteList (fun _ => okWorld) (fun _ _ => (true, []))
      "search" false false
      { url_pattern := some "/s/{search}", url_pattern_pages := some "/s/{search}/{page}",
        scraper := "ls", max_pages := some 3 }
      3 rfl rfl (by decide)).1 10 "http://e.com/s/q" 0 [] false,
    (C4_pagination_termination siteList (fun _ => okWorld) (fun _ _ => (true, []))
      "search" false false
      { url_pattern := some "/s/{search}", url_pattern_pages := some "/s/{search}/{page}",
        scraper := "ls", max_pages := some 3 }
      3 rfl rfl (by decide)).2 okWorld listDoc 3 (le_refl 3),
    by decide⟩

/-- C9 (amended): on the plain-HTTP path `fetch_page` makes exactly one
attempt, so a single fetch failure terminates pagination for the cursor; on
the selenium path the fetch is retried twice with a fresh session, so three
consecutive failures (not two) exhaust it, while a first-attempt success
costs one attempt.  Partial success is preserved: the state set only grows
across the loop, and a page failure never erases the success of earlier
pages. -/
theorem C9_fetch_failure_policy :
    (∀ (dp : Bool) (req : Option PyDoc) (s : Nat → Option PyDoc) (nd : Nat → Bool),
      fetch_page false dp req s nd = (req, 1)) ∧
    (∀ (req : Option PyDoc) (s : Nat → Option PyDoc) (nd : Nat → Bool),
      s 0 = none → s 1 = none → s 2 = none → nd 0 = true → nd 1 = true →
      fetch_page true true req s nd = (none, 3)) ∧
    (∀ (req : Option PyDoc) (s : Nat → Option PyDoc) (nd : Nat → Bool) (d : PyDoc),
      s 0 = some d → fetch_page true true req s nd = (some d, 1)) ∧
    (∀ site worlds pv mode o n fuel urlOpt page off st (succ : Bool) (u : String),
      u ∈ st →
      u ∈ (listLoop site worlds pv mode o n fuel urlOpt page off st succ).2.1) ∧
    (∀ site worlds pv mode o n fuel urlOpt page off st,
      (listLoop site worlds pv mode o n fuel urlOpt page off st true).1 = true) := by
  refine ⟨?_, ?_, ?_, ?_, ?_⟩
  · intro dp req s nd
    rfl
  · intro req s nd h0 h1 h2 hn0 hn1
    have e2 : fetch_page_selenium s nd 2 = (none, 1) := by
      unfold fetch_page_selenium
      rw [h2]
      simp
    have e1 : fetch_page_selenium s nd 1 = (none, 2) := by
      unfold fetch_page_selenium
      rw [h1]
      simp [hn1, e2]
    have e0 : fetch_page_selenium s nd 0 = (none, 3) := by
      unfold fetch_page_selenium
      rw [h0]
      simp [hn0, e1]
    simp [fetch_page, e0]
  · intro req s nd d h0
    have e0 : fetch_page_selenium s nd 0 = (some d, 1) := by
      unfold fetch_page_selenium
      rw [h0]
    simp [fetch_page, e0]
  · intro site worlds pv mode o n fuel urlOpt page off st succ u hu
    exact listLoop_state_mono site worlds pv mode o n fuel urlOpt page off st succ u hu
  · intro site worlds pv mode o n fuel urlOpt page off st
    exact listLoop_succ_true site worlds pv mode o n fuel urlOpt page off st

/-- Witness for C9: three consecutive selenium failures exhaust the fetch
with exactly three attempts; a URL placed in the state set before the loop is
still there afterwards. -/
theorem C9_fetch_failure_policy_witness :
    fetch_page true true none (fun _ => none) (fun _ => true) = (none, 3) ∧
    "u" ∈ (listLoop siteList (fun _ => okWorld) (fun _ _ => (true, [])) "search"
        false false 5 (some "http://e.com/s/q") 1 0 ["u"] false).2.1 :=
  ⟨C9_fetch_failure_policy.2.1 none (fun _ => none) (fun _ => true) rfl rfl rfl rfl rfl,
    C9_fetch_failure_policy.2.2.2.1 siteList (fun _ => okWorld) (fun _ _ => (true, []))
      "search" false false 5 (some "http://e.com/s/q") 1 0 ["u"] false "u" (by decide)⟩

/-- Counterexample to C9 as stated: on the plain-HTTP path a SINGLE fetch
failure (one attempt, fewer than the claimed two) already terminates
pagination for the cursor — `process_list_page` returns no next page after
one failed attempt. -/
theorem C9_counterexample :
    process_list_page siteList { requestsResult := none } (fun _ _ => (false, []))
        1 0 "search" false false [] =
      { next := none, success := false, state := [],
        events := [LEvent.fetchListPage], fetchAttempts := 1 } := by
  decide

/-- C5 (amended): during list traversal, an item whose resolved URL is
already in the loaded state set (with overwrite and re-NFO off) is skipped
before `process_video_page` is ever invoked for it — no per-URL fetch or
download — and any such skip makes the page report success.  The third
conjunct runs a full one-item page: the in-state item produces only a skip
event and `success = true`.  A state-set URL processed directly as a video
page is nevertheless re-fetched (see the counterexample), so the claim's
"zero network fetches" holds only for list items. -/
theorem C5_idempotent_resume :
    (∀ site pv w off (i : Nat) st (succ : Bool) items (u : String), u ∈ st →
      LEvent.processVideo u ∉
        (itemLoop site pv w off false false i st succ items).2.2) ∧
    (∀ site pv w off (o n : Bool) (i : Nat) st (succ : Bool) items (u : String),
      LEvent.skipProcessed u ∈ (itemLoop site pv w off o n i st succ items).2.2 →
      (itemLoop site pv w off o n i st succ items).1 = true) ∧
    (process_list_page siteList okWorld (fun _ _ => (false, [])) 1 0 "search"
        false false ["http://e.com/v/1"] =
      { next := some ("http://e.com/s/q/2", 2), success := true,
        state := ["http://e.com/v/1"],
        events := [LEvent.fetchListPage, LEvent.skipProcessed "http://e.com/v/1"],
        fetchAttempts := 1 }) := by
  refine ⟨?_, ?_, by decide⟩
  · intro site pv w off
    intro i st succ items
    induction items generalizing i st succ with
    | nil => intro u hu; simp [itemLoop]
    | cons item rest ih =>
        intro u hu
        unfold itemLoop
        by_cases h1 : 0 < off ∧ i < off
        · rw [if_pos h1]; exact ih _ _ _ u hu
        · rw [if_neg h1]
          cases hr : resolveItemUrl w.urljoin site.base_url w.constructVideoUrl
              (extract_data (some item) site.ctx site.itemFields) with
          | none => exact ih _ _ _ u hu
          | some vurl =>
              dsimp only
              by_cases h2 : vurl ∈ st ∧ (false || false) = false
              · rw [if_pos h2]
                intro hmem
                rcases List.mem_cons.mp hmem with heq | htail
                · cases heq
                · exact ih _ _ _ u hu htail
              · rw [if_neg h2]
                intro hmem
                rcases List.mem_cons.mp hmem with heq | htail
                · injection heq with he
                  subst he
                  exact h2 ⟨hu, rfl⟩
                · exact ih _ _ _ u (List.mem_append_left _ hu) htail
  · intro site pv w off o n
    intro i st succ items
    induction items generalizing i st succ with
    | nil => intro u hu; cases hu
    | cons item rest ih =>
        intro u hu
        unfold itemLoop at hu ⊢
        by_cases h1 : 0 < off ∧ i < off
        · rw [if_pos h1] at hu ⊢; exact ih _ _ _ u hu
        · rw [if_neg h1] at hu ⊢
          cases hr : resolveItemUrl w.urljoin site.base_url w.constructVideoUrl
              (extract_data (some item) site.ctx site.itemFields) with
          | none =>
              rw [hr] at hu
              exact ih _ _ _ u hu
          | some vurl =>
              rw [hr] at hu
              dsimp only at hu ⊢
              by_cases h2 : vurl ∈ st ∧ (o || n) = false
              · rw [if_pos h2] at hu ⊢
                exact itemLoop_succ_true site pv w off o n rest _ _
              · rw [if_neg h2] at hu ⊢
                rcases List.mem_cons.mp hu with heq | htail
                · cases heq
                · exact ih _ _ _ u htail

/-- Witness for C5: an in-state URL never gets a `processVideo` event, and a
skip forces page success, at the concrete one-item page. -/
theorem C5_idempotent_resume_witness :
    LEvent.processVideo "http://e.com/v/1" ∉
      (itemLoop siteList (fun _ _ => (false, [])) okWorld 0 false false 1
        ["http://e.com/v/1"] false [itemUrlDoc]).2.2 ∧
    (itemLoop siteList (fun _ _ => (false, [])) okWorld 0 false false 1
        ["http://e.com/v/1"] false [itemUrlDoc]).1 = true :=
  ⟨C5_idempotent_resume.1 siteList (fun _ _ => (false, [])) okWorld 0 1
      ["http://e.com/v/1"] false [itemUrlDoc] "http://e.com/v/1" (by decide),
    C5_idempotent_resume.2.1 siteList (fun _ _ => (false, [])) okWorld 0 false false 1
      ["http://e.com/v/1"] false [itemUrlDoc] "http://e.com/v/1" (by decide)⟩

/-- Counterexample to C5 as stated: a canonical video URL already in the
state set, processed directly as a video page (second run of the same URL),
is still fetched — the trace contains a network fetch — even though no
download happens and the run reports success.  "Zero network fetches" fails. -/
theorem C5_counterexample :
    process_video_page_plain siteC5 genC5 wC5 "http://e.com/v/1" false false false false
        ["http://e.com/v/1"] =
      (true, ["http://e.com/v/1"], [VEvent.fetchVideoPage]) ∧
    VEvent.fetchVideoPage ∈
      (process_video_page_plain siteC5 genC5 wC5 "http://e.com/v/1" false false false false
        ["http://e.com/v/1"]).2.2 := by
  refine ⟨by decide, ?_⟩
  rw [show (process_video_page_plain siteC5 genC5 wC5 "http://e.com/v/1" false false false
      false ["http://e.com/v/1"]).2.2 = [VEvent.fetchVideoPage] from by decide]
  exact List.mem_singleton_self _

end Smut
